import Mathlib

/-!
# Verification of the SelltronAI server core

Shallow embedding of the question-matching engine (`src/services/salesQAService.js`),
the voice pipeline route (`src/routes/voice.js`) and the sentiment service
(`src/services/sentimentService.js`).

Conventions of the embedding:
* JavaScript strings are Lean `String`s; character-level work happens on `List Char`.
* JavaScript numbers (similarity scores, sentiment scores) are modelled as `ℚ`:
  every comparison the code performs is order-theoretic, so the exact carrier
  does not matter for the stated properties.
* External collaborators (the MongoDB corpus store, the OpenAI completion
  service, the Google TTS/sentiment providers) are passed in as explicit
  oracle parameters; the code under verification owns only the logic around
  those calls, exactly as in the source.
* Fallible paths return `Option`/`Except`.
-/

/- Core marks the `Rat` arithmetic irreducible for elaboration performance;
definitional evaluation of concrete runs needs it unfolded (the kernel always
may).  Restore the default reducibility. -/
set_option allowUnsafeReducibility true in
attribute [semireducible] Rat.add Rat.sub Rat.neg Rat.mul Rat.div Rat.inv

namespace Selltron

/-! ## String helpers (JS semantics) -/

/-- JS `String.prototype.toLowerCase` restricted to per-character lowering
(ASCII-faithful, length preserving). -/
def jsToLower (s : String) : String :=
  String.mk (s.toList.map Char.toLower)

/-- First index (in characters) at which `pat` occurs in `s`, scanning left to
right; `none` when there is no occurrence.  JS `String.prototype.indexOf`
(restricted to nonempty patterns, the only use in the source). -/
def firstIdxOfAux (pat : List Char) : List Char → Nat → Option Nat
  | [], i => if pat = [] then some i else none
  | c :: rest, i =>
    if pat.isPrefixOf (c :: rest) then some i else firstIdxOfAux pat rest (i + 1)

def firstIdxOf (s pat : String) : Option Nat :=
  firstIdxOfAux pat.toList s.toList 0

/-- JS `String.prototype.includes`. -/
def containsSub (s pat : String) : Bool :=
  (firstIdxOf s pat).isSome

/-- JS `String.prototype.substring(i)` (suffix from character index `i`). -/
def jsSubstringFrom (s : String) (i : Nat) : String :=
  String.mk (s.toList.drop i)

/-- JS `String.prototype.substring(0, j)` (prefix of `j` characters). -/
def jsSubstringTo (s : String) (j : Nat) : String :=
  String.mk (s.toList.take j)

/-- Character length, in code points (JS `.length` on the ASCII data the
pipeline handles). -/
def jsLength (s : String) : Nat := s.toList.length

/-- JS word character (`\w` = `[A-Za-z0-9_]`). -/
def isWordChar (c : Char) : Bool :=
  ('a' ≤ c && c ≤ 'z') || ('A' ≤ c && c ≤ 'Z') || ('0' ≤ c && c ≤ '9') || c = '_'

/-- JS whitespace class `\s` (the inputs handled here are ASCII). -/
def isWs (c : Char) : Bool := c.isWhitespace

/-- JS `String.prototype.split(sep)` for a one-character separator,
structurally recursive so concrete runs evaluate definitionally
(`String.splitOn` itself does not reduce). -/
def jsSplitGo (sep : Char) : List Char → List Char → List String
  | acc, [] => [String.mk acc.reverse]
  | acc, c :: rest =>
    if c == sep then String.mk acc.reverse :: jsSplitGo sep [] rest
    else jsSplitGo sep (c :: acc) rest

def jsSplit (sep : Char) (s : String) : List String :=
  jsSplitGo sep [] s.toList

/-- JS `String.prototype.trim`. -/
def jsTrim (s : String) : String :=
  String.mk (((s.toList.dropWhile isWs).reverse.dropWhile isWs).reverse)

/-- Count of leading whitespace characters, with the remainder. -/
def wsRun : List Char → Nat × List Char
  | [] => (0, [])
  | c :: rest =>
    if isWs c then
      let (n, r) := wsRun rest
      (n + 1, r)
    else (0, c :: rest)

/-- Case-insensitive prefix test (a literal under the JS `i` flag). -/
def ciIsPrefixOf : List Char → List Char → Bool
  | [], _ => true
  | _ :: _, [] => false
  | a :: as, b :: bs => (a.toLower == b.toLower) && ciIsPrefixOf as bs

/-- Literal prefix test, case-sensitive or not. -/
def litPrefix (ci : Bool) (w : List Char) (s : List Char) : Bool :=
  if ci then ciIsPrefixOf w s else w.isPrefixOf s

/-- Replace every maximal whitespace run by `sep` (JS `replace(/\s+/g, sep)`
for a one-character `sep`).  Fuel-structural so the kernel can evaluate it;
the fuel is always instantiated with more than the string length. -/
def collapseWsGo (sep : Char) : Nat → List Char → List Char
  | 0, s => s
  | _ + 1, [] => []
  | fuel + 1, c :: rest =>
    if isWs c then sep :: collapseWsGo sep fuel (rest.dropWhile isWs)
    else c :: collapseWsGo sep fuel rest

def collapseWsWith (sep : Char) (s : String) : String :=
  String.mk (collapseWsGo sep (s.toList.length + 1) s.toList)

/-- A word-boundary regex pattern `\bw₁<gap>w₂<gap>…\b` with a fixed
replacement, the shape of every `String.prototype.replace` call in
`salesQAService.js`.  `plusGap` selects `\s+` over `\s*` for the gaps;
`ci` is the regex `i` flag. -/
structure WBPat where
  words : List String
  plusGap : Bool
  ci : Bool
  repl : String

/-- Match the literal words of a pattern, separated by whitespace gaps, at the
head of `s`; returns the consumed length. -/
def matchWordsAux (ci plusGap : Bool) : List String → List Char → Option Nat
  | [], _ => some 0
  | [w], s => if litPrefix ci w.toList s then some w.toList.length else none
  | w :: w2 :: ws, s =>
    if litPrefix ci w.toList s then
      let s1 := s.drop w.toList.length
      let (k, s2) := wsRun s1
      if plusGap && k == 0 then none
      else (matchWordsAux ci plusGap (w2 :: ws) s2).map (fun n => w.toList.length + k + n)
    else none

def patFirstChar (words : List String) : Char := (words.headD "").toList.headD 'a'

def patLastChar (words : List String) : Char := (words.getLastD "").toList.getLastD 'a'

/-- Try to match `\b<words>\b` at the head of `s`; `prevW` says whether the
character just before `s` in the full string is a word character (`\b` holds
at a position iff exactly one side is a word character, and at the ends of
the string iff the adjacent character is one). -/
def tryWBPat (p : WBPat) (prevW : Bool) (s : List Char) : Option Nat :=
  if prevW == isWordChar (patFirstChar p.words) then none
  else
    match matchWordsAux p.ci p.plusGap p.words s with
    | none => none
    | some n =>
      let lastW := isWordChar (patLastChar p.words)
      match s.drop n with
      | [] => if lastW then some n else none
      | c :: _ => if lastW != isWordChar c then some n else none

/-- Global word-boundary replace (JS `replace(/\b…\b/g, repl)`), scanning left
to right over the original string.  Fuel-structural. -/
def wbReplaceGo (p : WBPat) : Nat → Bool → List Char → List Char
  | 0, _, s => s
  | _ + 1, _, [] => []
  | fuel + 1, prevW, c :: rest =>
    match tryWBPat p prevW (c :: rest) with
    | some n =>
      if n == 0 then c :: wbReplaceGo p fuel (isWordChar c) rest
      else p.repl.toList ++ wbReplaceGo p fuel (isWordChar (patLastChar p.words)) ((c :: rest).drop n)
    | none => c :: wbReplaceGo p fuel (isWordChar c) rest

def wbReplace (s : String) (p : WBPat) : String :=
  String.mk (wbReplaceGo p (s.toList.length + 1) false s.toList)

/-- ASCII apostrophe, built by code point to keep source text plain. -/
def apos : Char := Char.ofNat 39

/-! ## Query Normalizer (`salesQAService.normalizeQuery`) -/

def punctChars : List Char := ['.', ',', '!', '?', ';', ':']

/-- The chain of word-boundary replaces in `normalizeQuery` (source order). -/
def normalizePats : List WBPat := [
  ⟨["pre", "sales"], false, false, "pre-sales"⟩,
  ⟨["post", "sales"], false, false, "post-sales"⟩,
  ⟨["co", "founder"], false, false, "co-founder"⟩,
  ⟨["co", "founder"], false, false, "co-founder"⟩,
  ⟨["what", "happened"], true, false, "what happens"⟩,
  ⟨["what", "will", "happen"], true, false, "what happens"⟩,
  ⟨["what", "would", "happen"], true, false, "what happens"⟩,
  ⟨["tell", "me", "about", "sale"], true, false, "about sales"⟩,
  ⟨["tell", "me", "about", "sales"], true, false, "about sales"⟩]

/-- `normalizeQuery(query)`: lowercase, trim, strip `[.,!?;:]`, collapse
whitespace, apply the domain canonicalizations, trim. -/
def normalizeQuery (query : String) : String :=
  let s1 := jsTrim (jsToLower query)
  let s2 := String.mk (s1.toList.filter (fun c => !punctChars.contains c))
  let s3 := collapseWsWith ' ' s2
  jsTrim (normalizePats.foldl wbReplace s3)

/-! ## Similarity Scorer (`salesQAService.calculateSimilarity`) -/

/-- `"competitor's"`, assembled to keep the apostrophe out of the source. -/
def competitorApos : String := "competitor" ++ String.mk [apos] ++ "s"

/-- The four surface-form unifications applied inside `calculateSimilarity`. -/
def simPats : List WBPat := [
  ⟨["competitors"], false, false, "competitor"⟩,
  ⟨[competitorApos], false, false, "competitor"⟩,
  ⟨["matching"], false, false, "match"⟩,
  ⟨["offers"], false, false, "offer"⟩]

def simNormalize (s : String) : String := simPats.foldl wbReplace (jsToLower s)

/-- The stop-word table of `isCommonWord`. -/
def commonWords : List String :=
  ["the", "a", "an", "and", "or", "but", "in", "on", "at", "to", "for", "of",
   "with", "by", "is", "are", "was", "were", "be", "been", "have", "has",
   "had", "do", "does", "did", "will", "would", "could", "should", "may",
   "might", "can", "you", "i", "me", "my", "we", "us", "our", "they", "them",
   "their", "this", "that", "these", "those", "hello", "hi", "how", "are",
   "listening", "talking", "please", "thank", "thanks", "yes", "no", "ok",
   "okay", "sure", "alright", "good", "bad", "great", "nice", "very",
   "really", "quite", "just", "only", "also", "too", "so", "then", "now",
   "here", "there", "where", "when", "why", "what", "who", "which", "whose"]

def isCommonWord (w : String) : Bool := commonWords.contains (jsToLower w)

/-- The significant-word list both inputs of `calculateSimilarity` are reduced
to: unify surface forms, split on single spaces, keep words longer than two
characters that are not stop words. -/
def sigWords (s : String) : List String :=
  (jsSplit ' ' (simNormalize s)).filter (fun w => w.toList.length > 2 && !isCommonWord w)

/-- Number of positions `i < min(min |w1| |w2|) 5` where both word lists agree
(the order-bonus loop). -/
def orderMatchCount (w1 w2 : List String) : Nat :=
  ((List.range (min (min w1.length w2.length) 5)).filter
    (fun i => w1.getD i "" == w2.getD i "")).length

/-- `calculateSimilarity(str1, str2)`; JS numbers are modelled as `ℚ`. -/
def calculateSimilarity (str1 str2 : String) : ℚ :=
  let len1 := jsLength str1
  let len2 := jsLength str2
  if len1 == 0 || len2 == 0 then 0
  else if ((min len1 len2 : ℚ) / (max len1 len2 : ℚ)) < 3/10 then 0
  else
    let words1 := sigWords str1
    let words2 := sigWords str2
    if words1.length == 0 || words2.length == 0 then 0
    else
      let intersection := words1.filter (fun w => words2.contains w)
      if intersection.length == 0 then
        if containsSub (jsToLower str1) (jsToLower str2) ||
           containsSub (jsToLower str2) (jsToLower str1) then 3/10
        else 0
      else
        let union := (words1 ++ words2).dedup
        let jaccardSimilarity : ℚ := (intersection.length : ℚ) / (union.length : ℚ)
        if jaccardSimilarity > 8/10 then min 1 (jaccardSimilarity + 1/10)
        else
          let orderBonus : ℚ := (orderMatchCount words1 words2 : ℚ) * (1/10)
          let substringBonus : ℚ :=
            if containsSub (jsToLower str1) (jsToLower str2) ||
               containsSub (jsToLower str2) (jsToLower str1) then 2/10
            else 0
          min 1 (jaccardSimilarity + orderBonus + substringBonus)

/-! ## Casual-utterance filter (`salesQAService.isCasualConversation`) -/

/-- Match a sequence of literal words separated by `\s+`, case-insensitively,
at the head of `s`. -/
def matchWordSeq (ws : List String) (s : List Char) : Bool :=
  match ws with
  | [] => true
  | [w] => ciIsPrefixOf w.toList s
  | w :: w2 :: rest =>
    ciIsPrefixOf w.toList s &&
      (let s1 := s.drop w.toList.length
       let (k, s2) := wsRun s1
       k != 0 && matchWordSeq (w2 :: rest) s2)

def casualGreetAlts : List String := ["hello", "hi", "hey"]

def casualPhrases : List (List String) :=
  [["how", "are", "you"], ["are", "you", "listening"], ["are", "you", "talking"]]

/-- The five anchored casual-conversation patterns, `some(p => p.test(query))`. -/
def isCasualConversation (query : String) : Bool :=
  let s := query.toList
  let p1 := casualGreetAlts.any (fun a =>
    ciIsPrefixOf a.toList s &&
      (let s1 := s.drop a.toList.length
       let (k, s2) := wsRun s1
       k != 0 && casualPhrases.any (fun ph => matchWordSeq ph s2)))
  let p2 := casualPhrases.any (fun ph => matchWordSeq ph s)
  let p3 := [["good", "morning"], ["good", "afternoon"], ["good", "evening"]].any
    (fun ph => matchWordSeq ph s)
  let p4 := [["thank", "you"], ["thanks"], ["bye"], ["goodbye"]].any
    (fun ph => matchWordSeq ph s)
  let p5 := ["yes", "no", "ok", "okay", "sure", "alright"].any
    (fun a => ciIsPrefixOf a.toList s)
  p1 || p2 || p3 || p4 || p5

/-! ## Corpus data model (`src/models/SalesQA.js`) -/

/-- One labeled answer option `{ option: 'A'|'B'|'C', text }`. -/
structure Answer where
  option : String
  text : String
  deriving Repr, DecidableEq

/-- One corpus question with its three labeled answers. -/
structure QuestionEntry where
  question : String
  answers : List Answer
  deriving Repr, DecidableEq

/-- One `SalesQA` document: a category holding several questions. -/
structure CorpusDoc where
  category : String
  description : String
  questions : List QuestionEntry
  deriving Repr, DecidableEq

/-- A `$unwind`-flattened question as produced by the aggregation pipelines of
`fuzzyMatch`/`fallbackSearch`. -/
structure FlatQuestion where
  question : String
  answers : List Answer
  category : String
  description : String
  deriving Repr, DecidableEq

/-- The object every tier hands back: the JS literals of `exactMatch` carry no
`similarity` key, the other tiers set one, hence the `Option`. -/
structure MatchResult where
  question : String
  answers : List Answer
  category : String
  description : String
  similarity : Option ℚ
  deriving Repr, DecidableEq

/-! ## Result Cache (`SalesQAService` constructor, `get/set/clearCache`) -/

/-- `{ result, timestamp }` as stored in `this.cache`. -/
structure CacheEntry where
  result : MatchResult
  timestamp : Nat
  deriving Repr, DecidableEq

/-- The in-memory `Map`, modelled in insertion order with unique keys. -/
abbrev Cache := List (String × CacheEntry)

def cacheMaxSize : Nat := 100

/-- Five minutes, in milliseconds. -/
def cacheTimeout : Nat := 5 * 60 * 1000

def cacheGet (c : Cache) (k : String) : Option CacheEntry :=
  (c.find? (fun p => p.1 == k)).map (·.2)

def cacheDelete (c : Cache) (k : String) : Cache :=
  c.filter (fun p => p.1 != k)

/-- `Map.set`: update in place when the key exists, else append. -/
def cacheSet (c : Cache) (k : String) (e : CacheEntry) : Cache :=
  if (c.find? (fun p => p.1 == k)).isSome then
    c.map (fun p => if p.1 == k then (k, e) else p)
  else c ++ [(k, e)]

/-- `getCachedResult(query)`: fresh entries are returned, stale entries are
deleted.  `now` models `Date.now()`. -/
def getCachedResult (c : Cache) (now : Nat) (query : String) :
    Option MatchResult × Cache :=
  let cacheKey := normalizeQuery query
  match cacheGet c cacheKey with
  | some cached =>
    if now - cached.timestamp < cacheTimeout then (some cached.result, c)
    else (none, cacheDelete c cacheKey)
  | none => (none, c)

/-- `setCachedResult(query, result)`: evict the first-inserted key when full,
then store under the normalized query. -/
def setCachedResult (c : Cache) (now : Nat) (query : String)
    (result : MatchResult) : Cache :=
  let cacheKey := normalizeQuery query
  let c1 := if cacheMaxSize ≤ c.length then
      match c with
      | [] => c
      | p :: _ => cacheDelete c p.1
    else c
  cacheSet c1 cacheKey ⟨result, now⟩

/-- `clearCache(query)` with a query argument. -/
def clearCache (c : Cache) (query : String) : Cache :=
  cacheDelete c (normalizeQuery query)

/-! ## Exact tier (`salesQAService.exactMatch`) -/

/-- The characters escaped by `escapeRegex` (`[.*+?^${}()|[\]\\]`); the braces
are built by code point. -/
def regexSpecials : List Char :=
  ['.', '*', '+', '?', '^', '$', Char.ofNat 123, Char.ofNat 125,
   '(', ')', '|', '[', ']', '\\']

def escapeRegex (s : String) : String :=
  String.mk ((s.toList.map
    (fun c => if regexSpecials.contains c then ['\\', c] else [c])).flatten)

/-- `"competitors'"`. -/
def competitorsApos : String := "competitors" ++ String.mk [apos]

/-- The 26 `searchVariations` of `exactMatch`, each derived from the raw
query (they are not chained). -/
def exactSearchVariations (query : String) : List String :=
  [query,
   normalizeQuery query,
   collapseWsWith '-' query,
   String.mk (query.toList.map (fun c => if c = '-' then ' ' else c)),
   wbReplace query ⟨["pre", "sales"], false, true, "pre-sales"⟩,
   wbReplace query ⟨["post", "sales"], false, true, "post-sales"⟩,
   wbReplace query ⟨["presales"], false, true, "pre-sales"⟩,
   wbReplace query ⟨["postsales"], false, true, "post-sales"⟩,
   wbReplace query ⟨["what", "happened"], true, true, "what happens"⟩,
   wbReplace query ⟨["what", "will", "happen"], true, true, "what happens"⟩,
   wbReplace query ⟨["what", "would", "happen"], true, true, "what happens"⟩,
   wbReplace query ⟨["tell", "me", "about", "sale"], true, true, "about sales"⟩,
   wbReplace query ⟨["tell", "me", "about", "sales"], true, true, "about sales"⟩,
   wbReplace query ⟨["competitor"], false, true, "competitor"⟩,
   wbReplace query ⟨["competitors"], false, true, "competitor"⟩,
   wbReplace query ⟨[competitorApos], false, true, "competitor"⟩,
   wbReplace query ⟨[competitorsApos], false, true, "competitor"⟩,
   wbReplace query ⟨["competitors"], false, true, competitorApos⟩,
   wbReplace query ⟨["competitor"], false, true, competitorApos⟩,
   wbReplace query ⟨["can", "you"], true, true, "can you"⟩,
   wbReplace query ⟨["do", "you"], true, true, "can you"⟩,
   wbReplace query ⟨["will", "you"], true, true, "can you"⟩,
   wbReplace query ⟨["match"], false, true, "match"⟩,
   wbReplace query ⟨["matching"], false, true, "match"⟩,
   wbReplace query ⟨["beat"], false, true, "match"⟩,
   wbReplace query ⟨["compete"], false, true, "match"⟩]

/-- The alternation texts spliced in by `flexiblePatterns`. -/
def flexCompetitorsAlt : String :=
  "(competitors?|competitor" ++ String.mk [apos] ++ "s?)"

def flexReplace (v : String) : String :=
  let f1 := wbReplace v ⟨["competitors"], false, true, flexCompetitorsAlt⟩
  let f2 := wbReplace f1 ⟨["competitor"], false, true, "(competitor|competitors?)"⟩
  let f3 := wbReplace f2 ⟨["match"], false, true, "(match|matching)"⟩
  wbReplace f3 ⟨["offer"], false, true, "(offer|offers)"⟩

/-- The anchored regex source strings handed to `SalesQA.findOne`. -/
def exactFlexPats (query : String) : List String :=
  (exactSearchVariations query).map (fun v => "^" ++ escapeRegex (flexReplace v) ++ "$")

/-- `exactMatch(query)`.  The `$or` regex query runs on the external store,
modelled by the oracle `db` applied to the pattern list; the `"questions.$"`
projection returns the matched document restricted to its first matching
question.  The returned literal has no `similarity` key. -/
def exactMatch (db : List String → Option CorpusDoc) (query : String) :
    Option MatchResult :=
  match db (exactFlexPats query) with
  | none => none
  | some result =>
    match result.questions with
    | q :: _ => some ⟨q.question, q.answers, result.category, result.description, none⟩
    | [] => none

/-! ## Partial tier (`salesQAService.partialMatch`) -/

/-- Mutable best-so-far of the scan loops (`bestMatch`, `bestScore`). -/
structure BestState where
  best : Option MatchResult
  score : ℚ

/-- The tier threshold for one candidate question in `partialMatch`:
0.6 baseline, 0.2 for the `'Basic Sales Questions'` category, capped at 0.4
when at least three exact words match. -/
def pmThreshold (cat query questionText : String) : ℚ :=
  let base : ℚ := if cat == "Basic Sales Questions" then 2/10 else 6/10
  let queryWords := (jsSplit ' ' (jsToLower query)).filter (fun w => w.toList.length > 2)
  let questionWords := (jsSplit ' ' (jsToLower questionText)).filter (fun w => w.toList.length > 2)
  let exactWordMatches := (queryWords.filter (fun w => questionWords.contains w)).length
  if 3 ≤ exactWordMatches then min base (4/10) else base

/-- One candidate question of `partialMatch`; `.error` is the early
`return bestMatch` taken when the similarity exceeds 0.7. -/
def pmStep (query cat desc : String) (st : BestState) (q : QuestionEntry) :
    Except MatchResult BestState :=
  let similarity := calculateSimilarity query q.question
  let threshold := pmThreshold cat query q.question
  if similarity > st.score ∧ similarity > threshold then
    let m : MatchResult := ⟨q.question, q.answers, cat, desc, some similarity⟩
    if similarity > 7/10 then .error m else .ok ⟨some m, similarity⟩
  else .ok st

/-- The pattern loop of `partialMatch`, breaking once `bestScore > 0.5`. -/
def pmPatterns (db : String → List CorpusDoc) (query : String) :
    List String → BestState → Except MatchResult BestState
  | [], st => .ok st
  | p :: ps, st =>
    match (db p).foldlM
        (fun s d => d.questions.foldlM (pmStep query d.category d.description) s) st with
    | .error m => .error m
    | .ok st' => if st'.score > 5/10 then .ok st' else pmPatterns db query ps st'

/-- `partialMatch(query)`.  The oracle `db` answers the regex `find` (already
limited to 10 documents by the store). -/
def partialMatch (db : String → List CorpusDoc) (query : String) :
    Option MatchResult :=
  let words := (jsSplit ' ' query).filter (fun w => w.toList.length > 2)
  if words.length == 0 then none
  else
    let normalizedQuery := normalizeQuery query
    let normalizedWords := (jsSplit ' ' normalizedQuery).filter (fun w => w.toList.length > 2)
    let searchPatterns :=
      [String.intercalate ".*" ((words.filter (fun w => !isCommonWord w)).map escapeRegex),
       String.intercalate ".*" (normalizedWords.map escapeRegex),
       String.intercalate ".*" (words.map escapeRegex)]
    match pmPatterns db query searchPatterns ⟨none, 0⟩ with
    | .error m => some m
    | .ok st => st.best

/-! ## Synonym table (`salesQAService.getSynonyms`) -/

/-- The synonym object, in source order.  The source literal repeats the keys
`'should'` and `'you'`; a JS object literal keeps the later value, so only
the final bindings appear here. -/
def synonymTable : List (String × List String) :=
  [("different", ["unique", "distinct", "special", "unlike"]),
   ("free", ["complimentary", "no-cost", "gratis", "zero-cost"]),
   ("solution", ["solutions", "service", "services", "product", "products"]),
   ("make", ["makes", "makes", "create", "creates"]),
   ("you", ["your", "yours", "yourself"]),
   ("what", ["how", "why"]),
   ("from", ["than", "compared to", "versus"]),
   ("risk", ["risks", "endanger", "jeopardize"]),
   ("career", ["careers", "job", "jobs", "profession"]),
   ("choosing", ["choose", "chose", "select", "selecting"]),
   ("should", ["shall", "would", "could", "must", "need"]),
   ("writing", ["written", "document", "documentation", "email", "text", "paper", "papers"]),
   ("send", ["sending", "email", "provide", "give", "share", "deliver", "forward"]),
   ("everything", ["all", "complete", "full", "entire", "total", "whole"]),
   ("information", ["info", "details", "data", "facts", "material", "content"]),
   ("document", ["documents", "paper", "papers", "file", "files", "report", "summary"]),
   ("written", ["writing", "text", "documentation", "email", "printed", "formal"]),
   ("talk", ["speak", "discuss", "chat", "conversation", "call"]),
   ("online", ["internet", "web", "website", "digital", "web-based"]),
   ("checking", ["check", "look", "search", "find", "verify"]),
   ("instead", ["rather", "alternative", "option", "choice"]),
   ("me", ["my", "myself", "i"]),
   ("can", ["could", "able", "possible", "capable"]),
   ("competitor", ["competitors", "rival", "rivals", "opponent", "opponents", "competition", "competing"]),
   ("competitors", ["competitor", "rival", "rivals", "opponent", "opponents", "competition", "competing"]),
   ("match", ["matches", "matching", "equal", "equals", "meet", "meets", "beat", "beats", "compete", "competing"]),
   ("offer", ["offers", "deal", "deals", "proposal", "proposals", "quote", "quotes", "price", "pricing"]),
   ("sale", ["sales", "selling", "sell", "sells", "sold", "purchase", "buy", "transaction"]),
   ("sales", ["sale", "selling", "sell", "sells", "sold", "purchases", "buying", "transactions"]),
   ("selling", ["sale", "sales", "sell", "sells", "sold", "pitching", "presenting"]),
   ("sell", ["sale", "sales", "selling", "sells", "sold", "pitch", "present", "offer"]),
   ("process", ["procedure", "method", "approach", "system", "workflow"]),
   ("customer", ["client", "buyer", "prospect", "lead", "purchaser"]),
   ("client", ["customer", "buyer", "prospect", "lead", "purchaser"]),
   ("buyer", ["customer", "client", "prospect", "lead", "purchaser"]),
   ("product", ["products", "service", "services", "solution", "solutions", "offer", "offering"]),
   ("service", ["services", "product", "products", "solution", "solutions", "offer", "offering"]),
   ("price", ["pricing", "cost", "costs", "fee", "fees", "rate", "rates", "charge", "charges"]),
   ("cost", ["price", "pricing", "fee", "fees", "rate", "rates", "charge", "charges", "costs"]),
   ("value", ["worth", "benefit", "benefits", "advantage", "advantages", "merit", "merits"]),
   ("benefit", ["value", "worth", "advantage", "merit", "benefits", "advantages", "merits"]),
   ("training", ["education", "learning", "development", "coaching", "mentoring", "teaching"]),
   ("skill", ["skills", "ability", "abilities", "talent", "talents", "capability", "capabilities"]),
   ("technique", ["techniques", "method", "methods", "approach", "approaches", "strategy", "strategies"]),
   ("strategy", ["strategies", "approach", "approaches", "method", "methods", "plan", "plans"]),
   ("goal", ["goals", "objective", "objectives", "target", "targets", "aim", "aims"]),
   ("target", ["targets", "goal", "goals", "objective", "objectives", "aim", "aims"]),
   ("result", ["results", "outcome", "outcomes", "consequence", "consequences", "effect", "effects"]),
   ("success", ["successful", "achievement", "achievements", "accomplishment", "accomplishments"]),
   ("help", ["helps", "helping", "assist", "assists", "assisting", "support", "supports", "supporting"]),
   ("assist", ["help", "helps", "helping", "support", "supports", "supporting", "aid", "aids", "aiding"]),
   ("support", ["help", "helps", "helping", "assist", "assists", "assisting", "aid", "aids", "aiding"])]

def getSynonyms (word : String) : List String :=
  ((synonymTable.find? (fun p => p.1 == jsToLower word)).map (·.2)).getD []

/-- `replaceWithSynonyms(query)`: each word is replaced by its first synonym. -/
def replaceWithSynonyms (query : String) : String :=
  String.intercalate " "
    ((jsSplit ' ' query).map (fun word =>
      match getSynonyms word with
      | s :: _ => s
      | [] => word))

/-! ## Indexed free-text tier (`salesQAService.textSearch`) -/

/-- One candidate question of the `$text` branch of `textSearch`; the question
text is lowercased before scoring, thresholds are 0.6 (0.4 with three exact
word matches), the early return fires above 0.7. -/
def tsStep (query cat desc : String) (st : BestState) (q : QuestionEntry) :
    Except MatchResult BestState :=
  let questionText := jsToLower q.question
  let score := calculateSimilarity query questionText
  let queryWords := (jsSplit ' ' (jsToLower query)).filter (fun w => w.toList.length > 2)
  let questionWords := (jsSplit ' ' questionText).filter (fun w => w.toList.length > 2)
  let exactWordMatches := (queryWords.filter (fun w => questionWords.contains w)).length
  let threshold : ℚ := if 3 ≤ exactWordMatches then 4/10 else 6/10
  if score > st.score ∧ score > threshold then
    let m : MatchResult := ⟨q.question, q.answers, cat, desc, some score⟩
    if score > 7/10 then .error m else .ok ⟨some m, score⟩
  else .ok st

/-- One candidate question of the regex fallback branch (threshold 0.15,
early return above 0.5). -/
def tsRegexStep (query cat desc : String) (st : BestState) (q : QuestionEntry) :
    Except MatchResult BestState :=
  let questionText := jsToLower q.question
  let score := calculateSimilarity query questionText
  if score > st.score ∧ score > 3/20 then
    let m : MatchResult := ⟨q.question, q.answers, cat, desc, some score⟩
    if score > 5/10 then .error m else .ok ⟨some m, score⟩
  else .ok st

/-- The variation loop of `textSearch`: skip blank/short variations, use the
`$text` oracle, fall back to the regex oracle when it errors, break once
`bestScore > 0.5`. -/
def tsVariations (tsDb : String → Except Unit (List CorpusDoc))
    (regexDb : String → List CorpusDoc) :
    List String → BestState → Except MatchResult BestState
  | [], st => .ok st
  | v :: vs, st =>
    if v == "" || (jsTrim v).toList.length < 3 then tsVariations tsDb regexDb vs st
    else
      let afterV : Except MatchResult BestState :=
        match tsDb v with
        | .ok results =>
          results.foldlM
            (fun (s : BestState) (d : CorpusDoc) =>
              d.questions.foldlM (tsStep v d.category d.description) s) st
        | .error _ =>
          (regexDb v).foldlM
            (fun (s : BestState) (d : CorpusDoc) =>
              d.questions.foldlM (tsRegexStep v d.category d.description) s) st
      match afterV with
      | .error m => .error m
      | .ok st' =>
        if st'.score > 5/10 then .ok st' else tsVariations tsDb regexDb vs st'

/-- `textSearch(query)`.  `tsDb` answers the `$text` search (limit 5);
`regexDb` answers the regex fallback (limit 3). -/
def textSearch (tsDb : String → Except Unit (List CorpusDoc))
    (regexDb : String → List CorpusDoc) (query : String) : Option MatchResult :=
  let searchVariations :=
    [query,
     String.intercalate " "
       ((jsSplit ' ' query).filter (fun w => !isCommonWord w && w.toList.length > 2)),
     replaceWithSynonyms query]
  match tsVariations tsDb regexDb searchVariations ⟨none, 0⟩ with
  | .error m => some m
  | .ok st => st.best

/-! ## Fuzzy and fallback tiers (`fuzzyMatch`, `fallbackSearch`) -/

def mkFlatResult (qd : FlatQuestion) (s : ℚ) : MatchResult :=
  ⟨qd.question, qd.answers, qd.category, qd.description, some s⟩

/-- One flattened question of `fuzzyMatch`: skip on zero word overlap, score
raw and normalized forms, take the max, break above 0.7. -/
def fuzzyStep (query normalizedQuery : String) (queryWords : List String)
    (st : BestState) (qd : FlatQuestion) : Except MatchResult BestState :=
  let questionWords := (jsSplit ' ' (jsToLower qd.question)).filter (fun w => w.toList.length > 2)
  let wordOverlap := (queryWords.filter (fun w => questionWords.contains w)).length
  if wordOverlap == 0 then .ok st
  else
    let similarity := calculateSimilarity query qd.question
    let normalizedSimilarity :=
      calculateSimilarity normalizedQuery (normalizeQuery qd.question)
    let maxSimilarity := max similarity normalizedSimilarity
    let threshold : ℚ := if qd.category == "Basic Sales Questions" then 2/10 else 6/10
    if maxSimilarity > st.score ∧ maxSimilarity > threshold then
      let m := mkFlatResult qd maxSimilarity
      if maxSimilarity > 7/10 then .error m else .ok ⟨some m, maxSimilarity⟩
    else .ok st

/-- `fuzzyMatch(query)`; `agg` is the `$unwind`/`$limit 50` aggregation answer. -/
def fuzzyMatch (agg : List FlatQuestion) (query : String) : Option MatchResult :=
  if agg.length == 0 then none
  else
    let queryWords := (jsSplit ' ' (jsToLower query)).filter (fun w => w.toList.length > 2)
    let normalizedQuery := normalizeQuery query
    match agg.foldlM (fuzzyStep query normalizedQuery queryWords) (⟨none, 0⟩ : BestState) with
    | .error m => some m
    | .ok st => st.best

/-- One flattened question of `fallbackSearch`: threshold 0.6, break once a
similarity above 0.3 is accepted. -/
def fallbackStep (query : String) (queryWords : List String)
    (st : BestState) (qd : FlatQuestion) : Except MatchResult BestState :=
  let questionWords := (jsSplit ' ' (jsToLower qd.question)).filter (fun w => w.toList.length > 2)
  let wordOverlap := (queryWords.filter (fun w => questionWords.contains w)).length
  if wordOverlap == 0 then .ok st
  else
    let similarity := calculateSimilarity query qd.question
    if similarity > st.score ∧ similarity > 6/10 then
      let m := mkFlatResult qd similarity
      if similarity > 3/10 then .error m else .ok ⟨some m, similarity⟩
    else .ok st

/-- `fallbackSearch(query)`; `agg` as in `fuzzyMatch`. -/
def fallbackSearch (agg : List FlatQuestion) (query : String) : Option MatchResult :=
  if agg.length == 0 then none
  else
    let queryWords := (jsSplit ' ' (jsToLower query)).filter (fun w => w.toList.length > 2)
    match agg.foldlM (fallbackStep query queryWords) (⟨none, 0⟩ : BestState) with
    | .error m => some m
    | .ok st => st.best

/-! ## Tiered Matcher (`salesQAService.findMatchingQuestion`) -/

/-- All external store queries a matcher run may issue. -/
structure CorpusOracles where
  exactDb : List String → Option CorpusDoc
  partialDb : String → List CorpusDoc
  textDb : String → Except Unit (List CorpusDoc)
  regexDb : String → List CorpusDoc
  aggDb : List FlatQuestion

/-- The corpus tiers, named for the invocation trace. -/
inductive Tier
  | exactTier
  | partialTier
  | textTier
  | fuzzyTier
  | fallbackTier
  deriving Repr, DecidableEq

/-- Where a `findMatchingQuestion` answer came from. -/
inductive Source
  | fromCache
  | fromExact
  | fromPartial
  | fromText
  | noMatch
  deriving Repr, DecidableEq

/-- Result of one matcher run: the answer, the updated cache, its source, and
the list of corpus tiers that were invoked. -/
structure FMQResult where
  result : Option MatchResult
  cache : Cache
  source : Source
  tiersTried : List Tier
  deriving Repr, DecidableEq

/-- JS truthiness-guarded threshold test
`cachedResult.similarity && cachedResult.similarity >= 0.7`. -/
def simOk : Option ℚ → Bool
  | none => false
  | some s => s != 0 && 7/10 ≤ s

/-- The tier chain below the cache check: casual filter, exact, partial, and —
for queries longer than 20 characters — the indexed text search.  Fuzzy and
fallback scans are skipped on this path (source comment: "Skip fuzzy and
fallback for speed"). -/
def tierPipeline (db : CorpusOracles) (c : Cache) (now : Nat)
    (cleanQuery : String) : FMQResult :=
  if isCasualConversation cleanQuery then ⟨none, c, .noMatch, []⟩
  else
    match exactMatch db.exactDb cleanQuery with
    | some m => ⟨some m, setCachedResult c now cleanQuery m, .fromExact, [.exactTier]⟩
    | none =>
      match partialMatch db.partialDb cleanQuery with
      | some m =>
        ⟨some m, setCachedResult c now cleanQuery m, .fromPartial,
         [.exactTier, .partialTier]⟩
      | none =>
        if 20 < jsLength cleanQuery then
          match textSearch db.textDb db.regexDb cleanQuery with
          | some m =>
            ⟨some m, setCachedResult c now cleanQuery m, .fromText,
             [.exactTier, .partialTier, .textTier]⟩
          | none => ⟨none, c, .noMatch, [.exactTier, .partialTier, .textTier]⟩
        else ⟨none, c, .noMatch, [.exactTier, .partialTier]⟩

/-- `findMatchingQuestion(query)`.  An empty query models the
`!query || typeof query !== 'string'` guard. -/
def findMatchingQuestion (db : CorpusOracles) (c : Cache) (now : Nat)
    (query : String) : FMQResult :=
  if query == "" then ⟨none, c, .noMatch, []⟩
  else
    let cleanQuery := normalizeQuery query
    match getCachedResult c now cleanQuery with
    | (some cachedResult, c1) =>
      if simOk cachedResult.similarity then ⟨some cachedResult, c1, .fromCache, []⟩
      else tierPipeline db (clearCache c1 cleanQuery) now cleanQuery
    | (none, c1) => tierPipeline db c1 now cleanQuery

/-- `findMatchingQuestionForce(query)`: clear the entry for the normalized
query, then run the default matcher. -/
def findMatchingQuestionForce (db : CorpusOracles) (c : Cache) (now : Nat)
    (query : String) : FMQResult :=
  findMatchingQuestion db (clearCache c query) now query

/-- One entry of the list built by `findMultipleMatchingQuestions`. -/
structure MatchedQuestion where
  originalQuery : String
  matchedQuestion : String
  answers : List Answer
  category : String
  description : String
  similarity : ℚ
  deriving Repr, DecidableEq

/-- `match.similarity || 0`. -/
def mkMatchedQuestion (orig : String) (m : MatchResult) : MatchedQuestion :=
  ⟨orig, m.question, m.answers, m.category, m.description, m.similarity.getD 0⟩

/-- `findMultipleMatchingQuestions(queries)`, threading the shared cache
through the sequential `findMatchingQuestion` calls. -/
def findMultipleMatchingQuestions (db : CorpusOracles) (c : Cache) (now : Nat)
    (queries : List String) : List MatchedQuestion × Cache :=
  queries.foldl
    (fun (acc : List MatchedQuestion × Cache) query =>
      if query != "" && (jsTrim query).toList.length > 0 then
        let out := findMatchingQuestion db acc.2 now (jsTrim query)
        match out.result with
        | some m => (acc.1 ++ [mkMatchedQuestion (jsTrim query) m], out.cache)
        | none => (acc.1, out.cache)
      else acc)
    ([], c)

/-! ## Multi-Question Splitter (`voice.js` `parseMultipleQuestions`) -/

/-- `[A-Z]` without the `i` flag. -/
def upperAZ (c : Char) : Bool := 'A' ≤ c && c ≤ 'Z'

/-- `[A-Z]` under the `i` flag: any ASCII letter. -/
def letterAZi (c : Char) : Bool := upperAZ c || ('a' ≤ c && c ≤ 'z')

/-- A separator matcher: number of characters the separator consumes when it
matches at the head of the suffix. -/
abbrev SepMatcher := List Char → Option Nat

/-- `/[p]\s+(?=[A-Z])/g` for a punctuation character `p` (`?` and `.`). -/
def sepPunctCap (p : Char) : SepMatcher := fun s =>
  match s with
  | c :: rest =>
    if c == p then
      let (k, r) := wsRun rest
      if k == 0 then none
      else
        match r with
        | d :: _ => if upperAZ d then some (1 + k) else none
        | [] => none
    else none
  | [] => none

/-- `/\s<w>\s+(?=[A-Z])/gi`; under the `i` flag the lookahead accepts any
ASCII letter. -/
def sepConjCap (w : String) : SepMatcher := fun s =>
  match s with
  | c :: rest =>
    if isWs c && ciIsPrefixOf w.toList rest then
      let s1 := rest.drop w.toList.length
      let (k, r) := wsRun s1
      if k == 0 then none
      else
        match r with
        | d :: _ => if letterAZi d then some (1 + w.toList.length + k) else none
        | [] => none
    else none
  | [] => none

/-- `/;\s+/g`. -/
def sepSemi : SepMatcher := fun s =>
  match s with
  | c :: rest =>
    if c == ';' then
      let (k, _) := wsRun rest
      if k == 0 then none else some (1 + k)
    else none
  | [] => none

/-- The question-word alternation of the sixth separator, in source order. -/
def sepQwordAlts : List String :=
  ["why", "what", "how", "when", "where", "who", "can", "do", "will", "would", "should"]

/-- `/\sand\s+(?=why|what|how|when|where|who|can|do|will|would|should)/gi`. -/
def sepConjQword (w : String) : SepMatcher := fun s =>
  match s with
  | c :: rest =>
    if isWs c && ciIsPrefixOf w.toList rest then
      let s1 := rest.drop w.toList.length
      let (k, r) := wsRun s1
      if k == 0 then none
      else if sepQwordAlts.any (fun q => ciIsPrefixOf q.toList r) then
        some (1 + w.toList.length + k)
      else none
    else none
  | [] => none

/-- `String.prototype.split` on a consuming regex separator, scanning left to
right.  Fuel-structural. -/
def regexSplitGo (m : SepMatcher) : Nat → List Char → List Char → List String
  | 0, acc, s => [String.mk (acc.reverse ++ s)]
  | _ + 1, acc, [] => [String.mk acc.reverse]
  | fuel + 1, acc, c :: rest =>
    match m (c :: rest) with
    | some n =>
      if n == 0 then regexSplitGo m fuel (c :: acc) rest
      else String.mk acc.reverse :: regexSplitGo m fuel [] ((c :: rest).drop n)
    | none => regexSplitGo m fuel (c :: acc) rest

def regexSplit (m : SepMatcher) (s : String) : List String :=
  regexSplitGo m (s.toList.length + 1) [] s.toList

/-- The per-fragment filter of the separator loop. -/
def looksLikeQuestion (m : String) : Bool :=
  let trimmed := jsTrim m
  jsLength trimmed > 10 && (containsSub trimmed "?" || jsLength trimmed > 20)

/-- The six separators, in source order. -/
def questionSeparators : List SepMatcher :=
  [sepPunctCap '?', sepPunctCap '.', sepConjCap "and", sepConjCap "aur",
   sepSemi, sepConjQword "and"]

/-- The separator loop: take the first separator that both splits the input
and leaves more than one valid question. -/
def firstSepHit : List SepMatcher → String → Option (List String)
  | [], _ => none
  | m :: ms, input =>
    let pieces := regexSplit m input
    if pieces.length > 1 then
      let validQuestions := pieces.filter looksLikeQuestion
      if validQuestions.length > 1 then some validQuestions else firstSepHit ms input
    else firstSepHit ms input

/-- The question words counted by the fallback (also the alternation of the
complete-question pattern, in the same order). -/
def questionWordList : List String :=
  ["what", "how", "why", "when", "where", "who", "can", "do", "will", "would",
   "should", "kya", "kaise", "kyun", "kab", "kahan", "kaun"]

/-- Count the matches of `/\b<w>\b/gi` in a string.  Fuel-structural scan over
the original string. -/
def countWBGo (w : List Char) : Nat → Bool → List Char → Nat
  | 0, _, _ => 0
  | _ + 1, _, [] => 0
  | fuel + 1, prevW, c :: rest =>
    let s := c :: rest
    if !prevW && ciIsPrefixOf w s &&
        (match s.drop w.length with
         | [] => true
         | d :: _ => !isWordChar d) then
      1 + countWBGo w fuel true (s.drop w.length)
    else countWBGo w fuel (isWordChar c) rest

def countWordBoundary (w : String) (s : String) : Nat :=
  countWBGo w.toList (s.toList.length + 1) false s.toList

def questionWordCount (input : String) : Nat :=
  questionWordList.foldl (fun count w => count + countWordBoundary w input) 0

def termChars : List Char := ['.', '!', '?']

/-- Match the complete-question pattern
`/(?:what|how|…)[^.!?]*(?:[.!?]|$)/gi` at the head of `s`. -/
def cqpTry (s : List Char) : Option Nat :=
  match questionWordList.find? (fun w => ciIsPrefixOf w.toList s) with
  | none => none
  | some w =>
    let s1 := s.drop w.toList.length
    let body := s1.takeWhile (fun c => !termChars.contains c)
    match s1.drop body.length with
    | _ :: _ => some (w.toList.length + body.length + 1)
    | [] => some (w.toList.length + body.length)

/-- `input.match(completeQuestionPattern)`: all non-overlapping matches, left
to right. -/
def cqpScanGo : Nat → List Char → List String
  | 0, _ => []
  | _ + 1, [] => []
  | fuel + 1, c :: rest =>
    match cqpTry (c :: rest) with
    | some n =>
      if n == 0 then cqpScanGo fuel rest
      else String.mk ((c :: rest).take n) :: cqpScanGo fuel ((c :: rest).drop n)
    | none => cqpScanGo fuel rest

def cqpScan (input : String) : List String :=
  cqpScanGo (input.toList.length + 1) input.toList

def endsWithQmark (s : String) : Bool :=
  match s.toList.getLast? with
  | some c => c == '?'
  | none => false

/-- `parseMultipleQuestions(userInput)`.  An empty string is falsy in JS, so
it takes the `return [userInput]` guard. -/
def parseMultipleQuestions (userInput : String) : List String :=
  if userInput == "" then [userInput]
  else
    let input := jsTrim userInput
    if jsLength input < 30 then [input]
    else
      match firstSepHit questionSeparators input with
      | some questions => questions
      | none =>
        let questionCount := questionWordCount input
        let fromPattern :=
          if questionCount > 1 then
            let pieces := cqpScan input
            if pieces.length > 1 then
              pieces.foldl
                (fun acc m =>
                  let trimmed := jsTrim m
                  if (jsLength trimmed > 15 && endsWithQmark trimmed) ||
                      jsLength trimmed > 20 then acc ++ [trimmed]
                  else acc) []
            else []
          else []
        if fromPattern.length == 0 then [input] else fromPattern

/-! ## Transcript question extraction (`keyHighlightsService.extractUserQuestion`) -/

def quoteChar : Char := '"'

def customerSaidPat : String := "customer said:"

/-- Try `/Customer said:\s*"([^"]+)"/i` at the head of `s`, returning the
capture group. -/
def extractCapture (s : List Char) : Option (List Char) :=
  if ciIsPrefixOf customerSaidPat.toList s then
    let s1 := s.drop customerSaidPat.toList.length
    let (_, s2) := wsRun s1
    match s2 with
    | c :: rest =>
      if c == quoteChar then
        let body := rest.takeWhile (fun d => d != quoteChar)
        if body.length == 0 then none
        else
          match rest.drop body.length with
          | _ :: _ => some body
          | [] => none
      else none
    | [] => none
  else none

def extractUserQuestionGo : Nat → List Char → Option (List Char)
  | 0, _ => none
  | _ + 1, [] => none
  | fuel + 1, c :: rest =>
    match extractCapture (c :: rest) with
    | some body => some body
    | none => extractUserQuestionGo fuel rest

/-- `extractUserQuestion(transcript)`: the trimmed capture of the leftmost
match, or the whole transcript. -/
def extractUserQuestion (transcript : String) : String :=
  match extractUserQuestionGo (transcript.toList.length + 1) transcript.toList with
  | some body => jsTrim (String.mk body)
  | none => transcript

/-! ## Pipeline reply selection (`voice.js` `/pipeline`, GPT section) -/

/-- The error object thrown by the completion client, as inspected by the
`catch` branch (`gptError.status`, `gptError.code`). -/
structure GptError where
  status : Option Nat
  code : Option String
  deriving Repr, DecidableEq

def isQuotaError (e : GptError) : Bool :=
  e.status == some 429 || e.code == some "insufficient_quota"

def aposS : String := String.mk [apos]

/-- The fixed three-option fallback reply substituted on quota errors. -/
def quotaFallback : String :=
  "Response A: I" ++ aposS ++
  "d be happy to help you with that. Let me provide you with more information.\n\nResponse B: That" ++
  aposS ++ "s a great question. Based on your needs, here" ++ aposS ++
  "s what I recommend.\n\nResponse C: I understand your concern. Let" ++ aposS ++
  "s explore the best solution for you."

/-- The terse reply substituted on every other completion error. -/
def genericGptFailure : String := "AI response generation failed. Please try again."

def gptErrorText (e : GptError) : String :=
  if isQuotaError e then quotaFallback else genericGptFailure

/-- One block of the direct database reply
(`Response A: …\nResponse B: …\nResponse C: …`); `none` models the
`TypeError` thrown when a record has fewer than three answers. -/
def composeOne (m : MatchedQuestion) : Option String := do
  let a ← m.answers.get? 0
  let b ← m.answers.get? 1
  let c ← m.answers.get? 2
  pure ("Response A: " ++ a.text ++ "\nResponse B: " ++ b.text ++
        "\nResponse C: " ++ c.text)

/-- `matchedQuestions.map(…).join('\n\n')`. -/
def composeDbResponse (ms : List MatchedQuestion) : Option String :=
  (ms.mapM composeOne).map (String.intercalate "\n\n")

/-- The force-search loop (`for (const query of questions) { … findMatchingQuestionForce … }`). -/
def forceSearchAll (db : CorpusOracles) (c : Cache) (now : Nat)
    (questions : List String) : List MatchedQuestion × Cache :=
  questions.foldl
    (fun (acc : List MatchedQuestion × Cache) query =>
      let out := findMatchingQuestionForce db acc.2 now (jsTrim query)
      match out.result with
      | some m => (acc.1 ++ [mkMatchedQuestion (jsTrim query) m], out.cache)
      | none => (acc.1, out.cache))
    ([], c)

/-- The sales-mode database search of the pipeline: extract the question,
split it, run the normal multi-search, and re-run with the force path when
there is no match or the first match scores below 0.6. -/
def pipelineSalesMatches (db : CorpusOracles) (c : Cache) (now : Nat)
    (transcript : String) : List MatchedQuestion × Cache :=
  let userQuestion := extractUserQuestion transcript
  let questions := parseMultipleQuestions userQuestion
  let (matchedQuestions, c1) := findMultipleMatchingQuestions db c now questions
  if matchedQuestions.length == 0 ||
      (match matchedQuestions.head? with
       | some m => m.similarity < 6/10
       | none => false) then
    let (forceMatches, c2) := forceSearchAll db c1 now questions
    if forceMatches.length > 0 then (forceMatches, c2) else (matchedQuestions, c2)
  else (matchedQuestions, c1)

/-- Outcome of the GPT section: the reply text and the number of completion
calls issued. -/
structure PipelineGptOut where
  responseText : String
  gptCalls : Nat
  deriving Repr, DecidableEq

/-- The GPT section of `/pipeline` (`try { … } catch (gptError) { … }`).

When the database search yields at least one match the reply is composed
directly and no completion call is made.  Otherwise exactly one completion
call is issued (with a related-questions prompt, a general sales prompt, or
the support prompt — the related-questions lookup only shapes the prompt
handed to the external service, so it is absorbed into the `gpt` oracle).
A thrown completion error is mapped to the quota fallback or the terse
failure string by the `catch` branch. -/
def pipelineGptSection (db : CorpusOracles) (c : Cache) (now : Nat)
    (gpt : Except GptError String) (mode transcript : String) :
    PipelineGptOut × Cache :=
  if mode == "sales" then
    let (matchedQuestions, c2) := pipelineSalesMatches db c now transcript
    if matchedQuestions.length > 0 then
      match composeDbResponse matchedQuestions with
      | some text => (⟨text, 0⟩, c2)
      | none => (⟨genericGptFailure, 0⟩, c2)
    else
      match gpt with
      | .ok text => (⟨text, 1⟩, c2)
      | .error e => (⟨gptErrorText e, 1⟩, c2)
  else
    match gpt with
    | .ok text => (⟨text, 1⟩, c)
    | .error e => (⟨gptErrorText e, 1⟩, c)

/-! ## TTS text extraction (`voice.js` `/pipeline`, TTS section) -/

/-- Generic literal global replace (JS `replace(/lit/g, repl)`). -/
def replaceAllGo (pat repl : List Char) : Nat → List Char → List Char
  | 0, s => s
  | _ + 1, [] => []
  | fuel + 1, c :: rest =>
    if pat ≠ [] ∧ pat.isPrefixOf (c :: rest) then
      repl ++ replaceAllGo pat repl fuel ((c :: rest).drop pat.length)
    else c :: replaceAllGo pat repl fuel rest

def replaceAllStr (s pat repl : String) : String :=
  String.mk (replaceAllGo pat.toList repl.toList (s.toList.length + 1) s.toList)

/-- `replace(/\r\n/g, " ").replace(/\n/g, " ").replace(/\s+/g, " ").trim()`. -/
def ttsWhitespaceClean (s : String) : String :=
  let s1 := replaceAllStr s "\r\n" " "
  let s2 := String.mk (s1.toList.map (fun c => if c == '\n' then ' ' else c))
  jsTrim (collapseWsWith ' ' s2)

/-- `firstLine.replace(/^Response [ABC]:\s*/i, "")`. -/
def stripLeadLabel (line : String) : String :=
  let l := line.toList
  if ciIsPrefixOf "response ".toList l then
    match l.drop 9 with
    | c :: rest =>
      if c.toLower == 'a' || c.toLower == 'b' || c.toLower == 'c' then
        match rest with
        | d :: rest2 => if d == ':' then String.mk (rest2.dropWhile isWs) else line
        | [] => line
      else line
    | [] => line
  else line

/-- The "STRICT FINAL CHECK": cut the text at the earliest case-insensitive
occurrence of `Response B`/`Response C`, if any. -/
def strictCut (t : String) : String :=
  let lowerText := jsToLower t
  if containsSub lowerText "response b" || containsSub lowerText "response c" then
    let bPos := firstIdxOf lowerText "response b"
    let cPos := firstIdxOf lowerText "response c"
    let cutPos := min (bPos.getD (jsLength t)) (cPos.getD (jsLength t))
    jsTrim (jsSubstringTo t cutPos)
  else t

/-- The Response-A extraction: text between the `Response A:` marker and the
earliest later marker, whitespace-normalized; without a marker, the first
line with a leading label stripped. -/
def extractTtsText (responseText : String) : String :=
  match firstIdxOf (jsToLower responseText) "response a:" with
  | some responseAIndex =>
    let afterResponseA := jsSubstringFrom responseText (responseAIndex + 11)
    let lowAfter := jsToLower afterResponseA
    let responseBIndex := firstIdxOf lowAfter "response b:"
    let responseCIndex := firstIdxOf lowAfter "response c:"
    let endIndex :=
      min (min (jsLength afterResponseA) (responseBIndex.getD (jsLength afterResponseA)))
        (responseCIndex.getD (jsLength afterResponseA))
    ttsWhitespaceClean (jsTrim (jsSubstringTo afterResponseA endIndex))
  | none =>
    let firstLine := (jsSplit '\n' responseText).headD ""
    jsTrim (stripLeadLabel firstLine)

/-- The text actually handed to `synthesizeSpeech`, if any: empty extracts
and extracts still naming a later option skip synthesis entirely. -/
def ttsTextForSynthesis (responseText : String) : Option String :=
  if responseText == "" then none
  else
    let t1 := extractTtsText responseText
    let t2 := strictCut t1
    let lower2 := jsToLower t2
    let t3 :=
      if containsSub lower2 "response b" || containsSub lower2 "response c" then ""
      else t2
    if t3 == "" then none else some t3

/-- The `audioUrl` produced by the TTS section: `none` whenever synthesis is
skipped or the synthesis call fails (its `catch` leaves `audioUrl` null). -/
def pipelineAudioUrl (synth : String → Option String) (responseText : String) :
    Option String :=
  match ttsTextForSynthesis responseText with
  | none => none
  | some t => synth t

/-! ## Streaming Early-Synthesis Trigger -/

/-- Modelled from the spec: the Streaming Early-Synthesis Trigger of §4.6 (a
running buffer over the completion token stream, a latched first-option
marker position, a ≈25-word minimum, and a boolean `earlyFired` latch) has
no implementation under `src/` — the checked-in `/pipeline` route issues a
single non-streaming synthesis call — so its state machine is reconstructed
from the specification text.  `fireCount` counts synthesis firings. -/
structure StreamState where
  buffer : String
  markerPos : Option Nat
  earlyFired : Bool
  fireCount : Nat
  deriving Repr, DecidableEq

/-- Modelled from the spec: the ≈25-word minimum-content threshold. -/
def minEarlyWords : Nat := 25

/-- Word count of the buffered text after the marker. -/
def countWords (s : String) : Nat :=
  ((jsSplit ' ' (jsTrim s)).filter (fun w => w != "")).length

/-- Modelled from the spec: whether the buffered text is ready for early
synthesis — the marker has been latched, at least 25 words follow it, and the
extract up to the next marker is clean of later-option references. -/
def streamFireReady (buffer : String) (markerPos : Option Nat) : Bool :=
  match markerPos with
  | none => false
  | some i =>
    let afterMarker := jsSubstringFrom buffer (i + 11)
    let upToNext :=
      match firstIdxOf (jsToLower afterMarker) "response b:" with
      | some j => jsSubstringTo afterMarker j
      | none => afterMarker
    let clean := ttsWhitespaceClean upToNext
    decide (minEarlyWords ≤ countWords afterMarker) &&
      !(containsSub (jsToLower clean) "response b" ||
        containsSub (jsToLower clean) "response c")

/-- Modelled from the spec: consume one stream increment — append to the
buffer, latch the first marker occurrence, and once the extract is ready fire
synthesis exactly once (the `earlyFired` latch guards re-firing). -/
def streamStep (st : StreamState) (chunk : String) : StreamState :=
  let buffer := st.buffer ++ chunk
  let markerPos :=
    match st.markerPos with
    | some i => some i
    | none => firstIdxOf (jsToLower buffer) "response a:"
  if !st.earlyFired && streamFireReady buffer markerPos then
    ⟨buffer, markerPos, true, st.fireCount + 1⟩
  else ⟨buffer, markerPos, st.earlyFired, st.fireCount⟩

def streamInit : StreamState := ⟨"", none, false, 0⟩

/-- Modelled from the spec: the whole stream consumption for one request. -/
def runStream (chunks : List String) : StreamState :=
  chunks.foldl streamStep streamInit

/-! ## Sentiment service (`src/services/sentimentService.js`) -/

/-- The shape returned by `analyzeSentiment`:
`{ score, magnitude, color, sentiment, error? }`. -/
structure SentimentResult where
  score : ℚ
  magnitude : ℚ
  color : String
  sentiment : String
  error : Option String
  deriving Repr, DecidableEq

/-- `documentSentiment` as produced by the external language provider. -/
structure RawSentiment where
  score : ℚ
  magnitude : ℚ
  deriving Repr, DecidableEq

/-- The neutral object built in the `catch` branch of `analyzeSentiment`. -/
def neutralSentiment (err : String) : SentimentResult :=
  { score := 0, magnitude := 0, color := "yellow", sentiment := "neutral",
    error := some err }

/-- `analyzeSentiment(text)`.

The provider call `languageClient.analyzeSentiment` is the oracle
`provider : Except String RawSentiment`; a `text` of `none` models a
non-string argument (`null`/`undefined`), on which the very first
`text.substring(0, 100)` throws and control lands in the `catch` branch. -/
def analyzeSentiment (provider : Except String RawSentiment)
    (text : Option String) : SentimentResult :=
  match text with
  | none => neutralSentiment "Sentiment analysis failed"
  | some t =>
    if (jsTrim t).toList.length == 0 then
      { score := 0, magnitude := 0, color := "yellow", sentiment := "neutral",
        error := some "Empty text" }
    else
      match provider with
      | .error e => neutralSentiment e
      | .ok raw =>
        if raw.score > 1/10 then
          { score := raw.score, magnitude := raw.magnitude,
            color := "green", sentiment := "positive", error := none }
        else if raw.score < -(1/10) then
          { score := raw.score, magnitude := raw.magnitude,
            color := "red", sentiment := "negative", error := none }
        else
          { score := raw.score, magnitude := raw.magnitude,
            color := "yellow", sentiment := "neutral", error := none }


/-! ## Auxiliary definitions for the verification -/

/-- Occurrence count of a literal pattern (used to state the three-option
shape of the quota fallback). -/
def countOccurGo (pat : List Char) : Nat → List Char → Nat
  | 0, _ => 0
  | _ + 1, [] => 0
  | fuel + 1, c :: rest =>
    if pat ≠ [] ∧ pat.isPrefixOf (c :: rest) then
      1 + countOccurGo pat fuel ((c :: rest).drop pat.length)
    else countOccurGo pat fuel rest

def countOccur (s pat : String) : Nat :=
  countOccurGo pat.toList (s.toList.length + 1) s.toList

/-- Loop invariant of the scan loops: any best-so-far has its similarity set. -/
def BestP (st : BestState) : Prop := ∀ m, st.best = some m → m.similarity.isSome

/-- The invariant through an `Except`-valued loop, also covering the early
returns. -/
def ExceptP : Except MatchResult BestState → Prop
  | .error m => m.similarity.isSome
  | .ok st => BestP st

/-- Invariant of the stream consumer: before the latch is set nothing has
fired, and the firing count never passes one. -/
def StreamInv (st : StreamState) : Prop :=
  (st.earlyFired = false → st.fireCount = 0) ∧ st.fireCount ≤ 1

/-- An oracle set over an empty corpus: every tier misses. -/
def missOracles : CorpusOracles :=
  ⟨fun _ => none, fun _ => [], fun _ => .ok [], fun _ => [], []⟩

/-- A three-answer record for concrete runs. -/
def hitAnswers : List Answer := [⟨"A", "a1"⟩, ⟨"B", "b1"⟩, ⟨"C", "c1"⟩]

def hitDoc : CorpusDoc := ⟨"Pricing", "desc", [⟨"what is your pricing", hitAnswers⟩]⟩

/-- An oracle set whose exact tier always returns `hitDoc`. -/
def hitOracles : CorpusOracles :=
  ⟨fun _ => some hitDoc, fun _ => [], fun _ => .ok [], fun _ => [], []⟩

/-- The result the exact tier builds from `hitDoc`: no similarity field. -/
def cx2result : MatchResult := ⟨"what is your pricing", hitAnswers, "Pricing", "desc", none⟩

/-- A cached low-similarity entry for the cache-trust run. -/
def w1Result : MatchResult := ⟨"what is your pricing", [], "Pricing", "desc", some (1/2)⟩

def w1Entry : CacheEntry := ⟨w1Result, 0⟩

def w1Cache : Cache := [("what is your pricing", w1Entry)]

/-! ## Cache and tier-pipeline lemmas -/

lemma cacheGet_cacheDelete_self (c : Cache) (k : String) :
    cacheGet (cacheDelete c k) k = none := by
  induction c with
  | nil => rfl
  | cons p rest ih =>
    unfold cacheDelete at *
    by_cases hp : (p.1 == k) = true
    · have hbne : (p.1 != k) = false := by simp [bne, hp]
      rw [List.filter_cons, hbne]
      simpa using ih
    · have hp' : (p.1 == k) = false := by simpa using hp
      have hbne : (p.1 != k) = true := by simp [bne, hp']
      rw [List.filter_cons, hbne, if_pos rfl]
      unfold cacheGet at *
      rw [List.find?_cons, hp']
      exact ih

lemma cacheGet_cacheSet (c : Cache) (k : String) (e : CacheEntry) :
    cacheGet (cacheSet c k e) k = some e := by
  unfold cacheSet
  by_cases hex : (c.find? (fun p => p.1 == k)).isSome
  · rw [if_pos hex]
    induction c with
    | nil => simp at hex
    | cons p rest ih =>
      rw [List.map_cons]
      by_cases hp : (p.1 == k) = true
      · rw [if_pos hp]
        unfold cacheGet
        rw [List.find?_cons]
        simp
      · have hp' : (p.1 == k) = false := by simpa using hp
        rw [if_neg hp]
        unfold cacheGet
        rw [List.find?_cons, hp']
        apply ih
        rw [List.find?_cons, hp'] at hex
        exact hex
  · rw [if_neg hex]
    unfold cacheGet
    induction c with
    | nil => simp [List.find?]
    | cons p rest ih =>
      rw [List.cons_append, List.find?_cons]
      rw [List.find?_cons] at hex
      by_cases hp : (p.1 == k) = true
      · rw [hp] at hex
        simp at hex
      · have hp' : (p.1 == k) = false := by simpa using hp
        rw [hp'] at hex ⊢
        exact ih hex

lemma cacheGet_setCachedResult (c : Cache) (now : Nat) (q : String) (m : MatchResult) :
    cacheGet (setCachedResult c now q m) (normalizeQuery q) = some ⟨m, now⟩ := by
  unfold setCachedResult
  apply cacheGet_cacheSet

lemma tierPipeline_source_ne (db : CorpusOracles) (c : Cache) (now : Nat) (q : String) :
    (tierPipeline db c now q).source ≠ Source.fromCache := by
  unfold tierPipeline
  split
  · simp
  · split
    · simp
    · split
      · simp
      · split
        · split <;> simp
        · simp

lemma tierPipeline_tiers (db : CorpusOracles) (c : Cache) (now : Nat) (q : String) :
    Tier.fuzzyTier ∉ (tierPipeline db c now q).tiersTried ∧
    Tier.fallbackTier ∉ (tierPipeline db c now q).tiersTried := by
  unfold tierPipeline
  split
  · simp
  · split
    · simp
    · split
      · simp
      · split
        · split <;> simp
        · simp

/-! ## Similarity-field invariants of the scan tiers -/

lemma bestP_init : BestP ⟨none, 0⟩ := by
  intro m hm
  simp at hm

lemma foldlM_exceptP {α : Type} (f : BestState → α → Except MatchResult BestState)
    (hstep : ∀ st x, BestP st → ExceptP (f st x)) :
    ∀ (l : List α) (st : BestState), BestP st → ExceptP (l.foldlM f st) := by
  intro l
  induction l with
  | nil => intro st h; exact h
  | cons x xs ih =>
    intro st h
    rw [List.foldlM_cons]
    cases hf : f st x with
    | error m =>
      have hstx := hstep st x h
      rw [hf] at hstx
      exact hstx
    | ok st' =>
      have hstx := hstep st x h
      rw [hf] at hstx
      exact ih st' hstx

lemma pmStep_p (query cat desc : String) (st : BestState) (qe : QuestionEntry)
    (h : BestP st) : ExceptP (pmStep query cat desc st qe) := by
  unfold pmStep
  dsimp only
  split_ifs <;>
    first
      | exact h
      | exact rfl
      | (intro m hm; injection hm with hm'; rw [← hm']; rfl)

lemma tsStep_p (query cat desc : String) (st : BestState) (qe : QuestionEntry)
    (h : BestP st) : ExceptP (tsStep query cat desc st qe) := by
  unfold tsStep
  dsimp only
  split_ifs <;>
    first
      | exact h
      | exact rfl
      | (intro m hm; injection hm with hm'; rw [← hm']; rfl)

lemma tsRegexStep_p (query cat desc : String) (st : BestState) (qe : QuestionEntry)
    (h : BestP st) : ExceptP (tsRegexStep query cat desc st qe) := by
  unfold tsRegexStep
  dsimp only
  split_ifs <;>
    first
      | exact h
      | exact rfl
      | (intro m hm; injection hm with hm'; rw [← hm']; rfl)

lemma pmPatterns_p (db : String → List CorpusDoc) (query : String) :
    ∀ (ps : List String) (st : BestState), BestP st → ExceptP (pmPatterns db query ps st) := by
  intro ps
  induction ps with
  | nil => intro st h; exact h
  | cons p ps ih =>
    intro st h
    unfold pmPatterns
    have hdocs := foldlM_exceptP
      (fun (s : BestState) (d : CorpusDoc) =>
        d.questions.foldlM (pmStep query d.category d.description) s)
      (fun s d hs =>
        foldlM_exceptP _
          (fun s' qe hs' => pmStep_p query d.category d.description s' qe hs')
          d.questions s hs)
      (db p) st h
    cases hf : (db p).foldlM
        (fun (s : BestState) (d : CorpusDoc) =>
          d.questions.foldlM (pmStep query d.category d.description) s) st with
    | error m =>
      rw [hf] at hdocs
      exact hdocs
    | ok st' =>
      rw [hf] at hdocs
      dsimp only
      split
      · exact hdocs
      · exact ih st' hdocs

lemma partialMatch_sim (db : String → List CorpusDoc) (query : String)
    (m : MatchResult) (h : partialMatch db query = some m) : m.similarity.isSome := by
  unfold partialMatch at h
  dsimp only at h
  split at h
  · exact absurd h (by simp)
  · split at h
    · rename_i m' heq
      injection h with h'
      subst h'
      have hp : ExceptP (Except.error m') := by
        rw [← heq]
        exact pmPatterns_p db query _ ⟨none, 0⟩ bestP_init
      exact hp
    · rename_i st heq
      have hp : ExceptP (Except.ok st) := by
        rw [← heq]
        exact pmPatterns_p db query _ ⟨none, 0⟩ bestP_init
      exact hp m h

lemma tsVariations_p (tsDb : String → Except Unit (List CorpusDoc))
    (regexDb : String → List CorpusDoc) :
    ∀ (vs : List String) (st : BestState), BestP st →
      ExceptP (tsVariations tsDb regexDb vs st) := by
  intro vs
  induction vs with
  | nil => intro st h; exact h
  | cons v vs ih =>
    intro st h
    unfold tsVariations
    dsimp only
    split
    · exact ih st h
    · have hv : ExceptP
          (match tsDb v with
           | .ok results =>
             results.foldlM
               (fun (s : BestState) (d : CorpusDoc) =>
                 d.questions.foldlM (tsStep v d.category d.description) s) st
           | .error _ =>
             (regexDb v).foldlM
               (fun (s : BestState) (d : CorpusDoc) =>
                 d.questions.foldlM (tsRegexStep v d.category d.description) s) st) := by
        cases tsDb v with
        | ok results =>
          exact foldlM_exceptP _
            (fun s d hs =>
              foldlM_exceptP _
                (fun s' qe hs' => tsStep_p v d.category d.description s' qe hs')
                d.questions s hs)
            results st h
        | error u =>
          exact foldlM_exceptP _
            (fun s d hs =>
              foldlM_exceptP _
                (fun s' qe hs' => tsRegexStep_p v d.category d.description s' qe hs')
                d.questions s hs)
            (regexDb v) st h
      cases hf : (match tsDb v with
           | .ok results =>
             results.foldlM
               (fun (s : BestState) (d : CorpusDoc) =>
                 d.questions.foldlM (tsStep v d.category d.description) s) st
           | .error _ =>
             (regexDb v).foldlM
               (fun (s : BestState) (d : CorpusDoc) =>
                 d.questions.foldlM (tsRegexStep v d.category d.description) s) st) with
      | error m =>
        rw [hf] at hv
        exact hv
      | ok st' =>
        rw [hf] at hv
        dsimp only
        split
        · exact hv
        · exact ih st' hv

lemma textSearch_sim (tsDb : String → Except Unit (List CorpusDoc))
    (regexDb : String → List CorpusDoc) (query : String)
    (m : MatchResult) (h : textSearch tsDb regexDb query = some m) :
    m.similarity.isSome := by
  unfold textSearch at h
  dsimp only at h
  split at h
  · rename_i m' heq
    injection h with h'
    subst h'
    have hp : ExceptP (Except.error m') := by
      rw [← heq]
      exact tsVariations_p tsDb regexDb _ ⟨none, 0⟩ bestP_init
    exact hp
  · rename_i st heq
    have hp : ExceptP (Except.ok st) := by
      rw [← heq]
      exact tsVariations_p tsDb regexDb _ ⟨none, 0⟩ bestP_init
    exact hp m h

lemma exactMatch_sim_none (db : List String → Option CorpusDoc) (query : String)
    (m : MatchResult) (h : exactMatch db query = some m) : m.similarity = none := by
  unfold exactMatch at h
  split at h
  · exact absurd h (by simp)
  · split at h
    · injection h with h'
      rw [← h']
    · exact absurd h (by simp)

lemma tierPipeline_c2 (db : CorpusOracles) (c : Cache) (now : Nat) (q : String) :
    ((tierPipeline db c now q).source = Source.fromExact →
      ∃ m, (tierPipeline db c now q).result = some m ∧ m.similarity = none ∧
        cacheGet (tierPipeline db c now q).cache (normalizeQuery q) = some ⟨m, now⟩) ∧
    (((tierPipeline db c now q).source = Source.fromPartial ∨
      (tierPipeline db c now q).source = Source.fromText) →
      ∃ m s, (tierPipeline db c now q).result = some m ∧ m.similarity = some s ∧
        cacheGet (tierPipeline db c now q).cache (normalizeQuery q) = some ⟨m, now⟩) := by
  unfold tierPipeline
  split
  · constructor
    · intro hsrc
      exact absurd hsrc (by simp)
    · intro hsrc
      rcases hsrc with hsrc | hsrc <;> exact absurd hsrc (by simp)
  · split
    · rename_i m hexact
      constructor
      · intro _
        exact ⟨m, rfl, exactMatch_sim_none _ _ _ hexact, cacheGet_setCachedResult _ _ _ _⟩
      · intro hsrc
        rcases hsrc with hsrc | hsrc <;> exact absurd hsrc (by simp)
    · split
      · rename_i m hpartial
        constructor
        · intro hsrc
          exact absurd hsrc (by simp)
        · intro _
          obtain ⟨s, hs⟩ := Option.isSome_iff_exists.mp (partialMatch_sim _ _ _ hpartial)
          exact ⟨m, s, rfl, hs, cacheGet_setCachedResult _ _ _ _⟩
      · split
        · split
          · rename_i m htext
            constructor
            · intro hsrc
              exact absurd hsrc (by simp)
            · intro _
              obtain ⟨s, hs⟩ := Option.isSome_iff_exists.mp (textSearch_sim _ _ _ _ htext)
              exact ⟨m, s, rfl, hs, cacheGet_setCachedResult _ _ _ _⟩
          · constructor
            · intro hsrc
              exact absurd hsrc (by simp)
            · intro hsrc
              rcases hsrc with hsrc | hsrc <;> exact absurd hsrc (by simp)
        · constructor
          · intro hsrc
            exact absurd hsrc (by simp)
          · intro hsrc
            rcases hsrc with hsrc | hsrc <;> exact absurd hsrc (by simp)

/-! ## Default-path tier usage -/

lemma findMatchingQuestion_no_fuzzy (db : CorpusOracles) (c : Cache) (now : Nat) (q : String) :
    Tier.fuzzyTier ∉ (findMatchingQuestion db c now q).tiersTried ∧
    Tier.fallbackTier ∉ (findMatchingQuestion db c now q).tiersTried := by
  unfold findMatchingQuestion
  split
  · simp
  · dsimp only
    unfold getCachedResult
    dsimp only
    cases hget : cacheGet c (normalizeQuery (normalizeQuery q)) with
    | none =>
      dsimp only
      exact tierPipeline_tiers _ _ _ _
    | some entry =>
      dsimp only
      by_cases hfresh : now - entry.timestamp < cacheTimeout
      · rw [if_pos hfresh]
        dsimp only
        by_cases hsim : simOk entry.result.similarity = true
        · rw [if_pos hsim]
          simp
        · rw [if_neg hsim]
          exact tierPipeline_tiers _ _ _ _
      · rw [if_neg hfresh]
        dsimp only
        exact tierPipeline_tiers _ _ _ _

/-! ## Scorer symmetry lemmas -/

lemma beq_str_comm (a b : String) : (a == b) = (b == a) := by
  by_cases h : a = b
  · subst h
    rfl
  · have h1 : (a == b) = false := by simpa using h
    have h2 : (b == a) = false := by simpa using (Ne.symm h)
    rw [h1, h2]

lemma contains_filter_length_comm (l1 l2 : List String)
    (h1 : l1.Nodup) (h2 : l2.Nodup) :
    (l1.filter (fun w => l2.contains w)).length =
    (l2.filter (fun w => l1.contains w)).length := by
  have e1 : (l1.filter (fun w => l2.contains w)).length =
      (l1.toFinset ∩ l2.toFinset).card := by
    rw [← List.toFinset_card_of_nodup (h1.filter _)]
    congr 1
    ext x
    simp [List.mem_filter, List.elem_iff]
  have e2 : (l2.filter (fun w => l1.contains w)).length =
      (l2.toFinset ∩ l1.toFinset).card := by
    rw [← List.toFinset_card_of_nodup (h2.filter _)]
    congr 1
    ext x
    simp [List.mem_filter, List.elem_iff]
  rw [e1, e2, Finset.inter_comm]

lemma dedup_append_length_comm (l1 l2 : List String) :
    ((l1 ++ l2).dedup).length = ((l2 ++ l1).dedup).length := by
  rw [← List.card_toFinset, ← List.card_toFinset, List.toFinset_append,
    List.toFinset_append, Finset.union_comm]

lemma orderMatchCount_comm (w1 w2 : List String) :
    orderMatchCount w1 w2 = orderMatchCount w2 w1 := by
  unfold orderMatchCount
  rw [min_comm w1.length]
  congr 1
  apply List.filter_congr
  intro i _
  exact beq_str_comm _ _

/-! ## Splitter lemmas -/

lemma firstSepHit_ne_nil {ms : List SepMatcher} {input : String} {qs : List String}
    (h : firstSepHit ms input = some qs) : qs ≠ [] := by
  induction ms with
  | nil => simp [firstSepHit] at h
  | cons m ms ih =>
    unfold firstSepHit at h
    dsimp only at h
    split at h
    · split at h
      · rename_i hval
        injection h with h'
        intro hnil
        rw [h', hnil] at hval
        simp at hval
      · exact ih h
    · exact ih h

lemma ite_len_ne_nil (input : String) (fp : List String) :
    (if (fp.length == 0) = true then [input] else fp) ≠ [] := by
  split
  · simp
  · rename_i hz
    intro hnil
    rw [hnil] at hz
    simp at hz

/-! ## Stream-trigger lemmas -/

lemma streamStep_inv (st : StreamState) (chunk : String) (h : StreamInv st) :
    StreamInv (streamStep st chunk) := by
  unfold streamStep
  dsimp only
  split
  · rename_i hcond
    have hef : st.earlyFired = false := by
      rcases Bool.and_eq_true _ _ |>.mp hcond with ⟨h1, _⟩
      simpa using h1
    exact ⟨fun hh => by simp at hh, by simp [StreamInv, h.1 hef]⟩
  · exact ⟨h.1, h.2⟩

lemma foldl_stream_inv (chunks : List String) (st : StreamState) (h : StreamInv st) :
    StreamInv (chunks.foldl streamStep st) := by
  induction chunks generalizing st with
  | nil => exact h
  | cons c cs ih => exact ih _ (streamStep_inv st c h)

/-! ## The claims -/

/-- C1: a cached result is returned by `findMatchingQuestion` only when its
similarity field passes the JS-truthy threshold test (present, nonzero and at
least 0.7); a fresh cache entry failing that test is deleted from the cache
and matching is redone through the corpus tier pipeline, which never reports
the cache as its source. -/
theorem c1_cache_trust (db : CorpusOracles) (c : Cache) (now : Nat) (query : String) :
    ((findMatchingQuestion db c now query).source = Source.fromCache →
      ∃ e, cacheGet c (normalizeQuery (normalizeQuery query)) = some e ∧
        now - e.timestamp < cacheTimeout ∧
        simOk e.result.similarity = true ∧
        (findMatchingQuestion db c now query).result = some e.result) ∧
    (∀ e, query ≠ "" →
      cacheGet c (normalizeQuery (normalizeQuery query)) = some e →
      now - e.timestamp < cacheTimeout →
      simOk e.result.similarity = false →
      findMatchingQuestion db c now query =
        tierPipeline db (cacheDelete c (normalizeQuery (normalizeQuery query))) now
          (normalizeQuery query) ∧
      cacheGet (cacheDelete c (normalizeQuery (normalizeQuery query)))
        (normalizeQuery (normalizeQuery query)) = none ∧
      (tierPipeline db (cacheDelete c (normalizeQuery (normalizeQuery query))) now
        (normalizeQuery query)).source ≠ Source.fromCache) := by
  unfold findMatchingQuestion
  by_cases h0 : (query == "") = true
  · rw [if_pos h0]
    constructor
    · intro hsrc
      exact absurd hsrc (by simp)
    · intro e hq _ _ _
      exact absurd (by simpa using h0) hq
  · rw [if_neg h0]
    dsimp only
    unfold getCachedResult
    dsimp only
    cases hget : cacheGet c (normalizeQuery (normalizeQuery query)) with
    | none =>
      dsimp only
      constructor
      · intro hsrc
        exact absurd hsrc (tierPipeline_source_ne _ _ _ _)
      · intro e _ hget' _ _
        exact absurd hget' (by simp)
    | some entry =>
      dsimp only
      by_cases hfresh : now - entry.timestamp < cacheTimeout
      · rw [if_pos hfresh]
        dsimp only
        by_cases hsim : simOk entry.result.similarity = true
        · rw [if_pos hsim]
          constructor
          · intro _
            exact ⟨entry, rfl, hfresh, hsim, rfl⟩
          · intro e _ hget' _ hsim'
            injection hget' with he
            rw [← he, hsim] at hsim'
            exact absurd hsim' (by simp)
        · rw [if_neg hsim]
          constructor
          · intro hsrc
            exact absurd hsrc (tierPipeline_source_ne _ _ _ _)
          · intro e _ hget' _ _
            exact ⟨rfl, cacheGet_cacheDelete_self _ _, tierPipeline_source_ne _ _ _ _⟩
      · rw [if_neg hfresh]
        dsimp only
        constructor
        · intro hsrc
          exact absurd hsrc (tierPipeline_source_ne _ _ _ _)
        · intro e _ hget' hfr _
          injection hget' with he
          rw [← he] at hfr
          exact absurd hfr hfresh

/-- C1 witness: a concrete fresh entry with similarity 0.5 is cleared and the
tier pipeline is rerun. -/
theorem c1_cache_trust_witness :
    findMatchingQuestion missOracles w1Cache 5 "what is your pricing" =
      tierPipeline missOracles
        (cacheDelete w1Cache (normalizeQuery (normalizeQuery "what is your pricing"))) 5
        (normalizeQuery "what is your pricing") ∧
    cacheGet
      (cacheDelete w1Cache (normalizeQuery (normalizeQuery "what is your pricing")))
      (normalizeQuery (normalizeQuery "what is your pricing")) = none := by
  have h := (c1_cache_trust missOracles w1Cache 5 "what is your pricing").2 w1Entry
    (by decide) rfl (by norm_num [cacheTimeout, w1Entry]) rfl
  exact ⟨h.1, h.2.1⟩

/-- C2: every result accepted by the partial or text tier is cached under the
normalized query with its similarity populated, and a result accepted by the
exact tier is cached as well — but its similarity field is absent (`none`),
not 1.0: the JS literals of `exactMatch` carry no `similarity` key. -/
theorem c2_similarity_caching (db : CorpusOracles) (c : Cache) (now : Nat) (query : String) :
    ((findMatchingQuestion db c now query).source = Source.fromExact →
      ∃ m, (findMatchingQuestion db c now query).result = some m ∧
        m.similarity = none ∧
        cacheGet (findMatchingQuestion db c now query).cache
          (normalizeQuery (normalizeQuery query)) = some ⟨m, now⟩) ∧
    (((findMatchingQuestion db c now query).source = Source.fromPartial ∨
      (findMatchingQuestion db c now query).source = Source.fromText) →
      ∃ m s, (findMatchingQuestion db c now query).result = some m ∧
        m.similarity = some s ∧
        cacheGet (findMatchingQuestion db c now query).cache
          (normalizeQuery (normalizeQuery query)) = some ⟨m, now⟩) := by
  unfold findMatchingQuestion
  split
  · constructor
    · intro hsrc
      exact absurd hsrc (by simp)
    · intro hsrc
      rcases hsrc with hsrc | hsrc <;> exact absurd hsrc (by simp)
  · dsimp only
    unfold getCachedResult
    dsimp only
    cases hget : cacheGet c (normalizeQuery (normalizeQuery query)) with
    | none =>
      dsimp only
      exact tierPipeline_c2 db c now (normalizeQuery query)
    | some entry =>
      dsimp only
      by_cases hfresh : now - entry.timestamp < cacheTimeout
      · rw [if_pos hfresh]
        dsimp only
        by_cases hsim : simOk entry.result.similarity = true
        · rw [if_pos hsim]
          constructor
          · intro hsrc
            exact absurd hsrc (by simp)
          · intro hsrc
            rcases hsrc with hsrc | hsrc <;> exact absurd hsrc (by simp)
        · rw [if_neg hsim]
          exact tierPipeline_c2 db _ now (normalizeQuery query)
      · rw [if_neg hfresh]
        dsimp only
        exact tierPipeline_c2 db _ now (normalizeQuery query)

/-- C2 counterexample to the original claim: an exact-tier hit is accepted and
cached with NO similarity field (in particular not 1.0). -/
theorem c2_counterexample :
    (findMatchingQuestion hitOracles [] 0 "what is your pricing").source =
      Source.fromExact ∧
    (findMatchingQuestion hitOracles [] 0 "what is your pricing").result =
      some cx2result ∧
    cx2result.similarity = none ∧ cx2result.similarity ≠ some 1 := by
  refine ⟨rfl, rfl, rfl, ?_⟩
  rw [show cx2result.similarity = none from rfl]
  simp

/-- C2 witness: the amended theorem applied at an exact-tier hit. -/
theorem c2_similarity_caching_witness :
    ∃ m, (findMatchingQuestion hitOracles [] 0 "what is your pricing").result = some m ∧
      m.similarity = none ∧
      cacheGet (findMatchingQuestion hitOracles [] 0 "what is your pricing").cache
        (normalizeQuery (normalizeQuery "what is your pricing")) = some ⟨m, 0⟩ :=
  (c2_similarity_caching hitOracles [] 0 "what is your pricing").1 rfl

/-- C3: in sales mode, when the database search confirms at least one match,
the completion oracle is not consulted (zero completion calls) and the
response text is the composed three-option database reply. -/
theorem c3_db_hit_skips_gpt (db : CorpusOracles) (c : Cache) (now : Nat)
    (gpt : Except GptError String) (transcript : String)
    (hne : (pipelineSalesMatches db c now transcript).1 ≠ []) :
    (pipelineGptSection db c now gpt "sales" transcript).1.gptCalls = 0 ∧
    ∀ text, composeDbResponse (pipelineSalesMatches db c now transcript).1 = some text →
      (pipelineGptSection db c now gpt "sales" transcript).1.responseText = text := by
  unfold pipelineGptSection
  rcases hps : pipelineSalesMatches db c now transcript with ⟨mq, c2⟩
  rw [hps] at hne
  simp only at hne
  have hlen : mq.length > 0 := List.length_pos.mpr hne
  simp only [show (("sales" == "sales") = true) from rfl, if_true, hps]
  rw [if_pos hlen]
  refine ⟨?_, ?_⟩
  · cases hcd : composeDbResponse mq <;> rfl
  · intro text htext
    rw [htext]

/-- C3 witness: a one-document corpus whose exact tier matches the extracted
question; the reply is the composed database response and no completion call
is made. -/
theorem c3_db_hit_skips_gpt_witness :
    (pipelineGptSection hitOracles [] 0 (Except.ok "gpt") "sales"
      "what is your pricing").1.gptCalls = 0 ∧
    (pipelineGptSection hitOracles [] 0 (Except.ok "gpt") "sales"
      "what is your pricing").1.responseText =
      "Response A: a1\nResponse B: b1\nResponse C: c1" := by
  have h := c3_db_hit_skips_gpt hitOracles [] 0 (Except.ok "gpt") "what is your pricing"
    (by
      intro hnil
      have hlen := congrArg List.length hnil
      rw [show ((pipelineSalesMatches hitOracles [] 0 "what is your pricing").1).length = 1
          from rfl] at hlen
      simp at hlen)
  exact ⟨h.1, h.2 _ rfl⟩

set_option maxRecDepth 20000 in
/-- C4: a completion failure leaves exactly one completion call; a quota
error (status 429 or code insufficient_quota) substitutes the fixed
three-option fallback — which contains each of the labels Response A:,
Response B:, Response C: exactly once, in that order, and is not empty —
while any other error substitutes the terse generic failure string. -/
theorem c4_quota_fallback (db : CorpusOracles) (c : Cache) (now : Nat)
    (e : GptError) (mode transcript : String) :
    ((pipelineGptSection db c now (.error e) mode transcript).1.gptCalls = 1 →
      (pipelineGptSection db c now (.error e) mode transcript).1.responseText =
        if isQuotaError e then quotaFallback else genericGptFailure) ∧
    firstIdxOf quotaFallback "Response A:" = some 0 ∧
    firstIdxOf quotaFallback "Response B:" = some 91 ∧
    firstIdxOf quotaFallback "Response C:" = some 175 ∧
    countOccur quotaFallback "Response A:" = 1 ∧
    countOccur quotaFallback "Response B:" = 1 ∧
    countOccur quotaFallback "Response C:" = 1 ∧
    quotaFallback ≠ "" ∧
    genericGptFailure = "AI response generation failed. Please try again." := by
  refine ⟨?_, rfl, rfl, rfl, rfl, rfl, rfl, ?_, rfl⟩
  · intro hcalls
    unfold pipelineGptSection at hcalls ⊢
    rcases hps : pipelineSalesMatches db c now transcript with ⟨mq, c2⟩
    rw [hps] at hcalls
    by_cases hmode : (mode == "sales") = true
    · rw [if_pos hmode] at hcalls ⊢
      dsimp only at hcalls ⊢
      by_cases hlen : mq.length > 0
      · rw [if_pos hlen] at hcalls
        cases hcd : composeDbResponse mq with
        | some t0 => rw [hcd] at hcalls; simp at hcalls
        | none => rw [hcd] at hcalls; simp at hcalls
      · rw [if_neg hlen]
        simp [gptErrorText]
    · rw [if_neg hmode] at hcalls ⊢
      simp [gptErrorText]
  · intro h
    have h2 : quotaFallback.toList.length = 0 := by rw [h]; rfl
    rw [show quotaFallback.toList.length = 254 from rfl] at h2
    simp at h2

/-- C4 witness: a 429 failure in support mode makes one completion call and
returns the quota fallback. -/
theorem c4_quota_fallback_witness :
    (pipelineGptSection missOracles [] 0 (Except.error ⟨some 429, none⟩) "support"
      "x").1.gptCalls = 1 ∧
    (pipelineGptSection missOracles [] 0 (Except.error ⟨some 429, none⟩) "support"
      "x").1.responseText = quotaFallback := by
  have h := (c4_quota_fallback missOracles [] 0 ⟨some 429, none⟩ "support" "x").1 rfl
  exact ⟨rfl, h⟩

/-- C5: the similarity scorer is symmetric whenever neither side carries a
repeated significant word (the duplicate-token intersection inflation is the
only source of asymmetry). -/
theorem c5_scorer_symmetric_on_nodup (a b : String)
    (ha : (sigWords a).Nodup) (hb : (sigWords b).Nodup) :
    calculateSimilarity a b = calculateSimilarity b a := by
  have e1 : ((jsLength b == 0) || (jsLength a == 0)) = ((jsLength a == 0) || (jsLength b == 0)) :=
    Bool.or_comm _ _
  have e2 : (min (jsLength b : ℚ) (jsLength a : ℚ)) = (min (jsLength a : ℚ) (jsLength b : ℚ)) :=
    min_comm _ _
  have e3 : (max (jsLength b : ℚ) (jsLength a : ℚ)) = (max (jsLength a : ℚ) (jsLength b : ℚ)) :=
    max_comm _ _
  have e4 : (((sigWords b).length == 0) || ((sigWords a).length == 0)) =
      (((sigWords a).length == 0) || ((sigWords b).length == 0)) := Bool.or_comm _ _
  have e5 : ((sigWords b).filter (fun w => (sigWords a).contains w)).length =
      ((sigWords a).filter (fun w => (sigWords b).contains w)).length :=
    contains_filter_length_comm _ _ hb ha
  have e6 : ((sigWords b ++ sigWords a).dedup).length =
      ((sigWords a ++ sigWords b).dedup).length := dedup_append_length_comm _ _
  have e7 : orderMatchCount (sigWords b) (sigWords a) =
      orderMatchCount (sigWords a) (sigWords b) := orderMatchCount_comm _ _
  have e8 : (containsSub (jsToLower b) (jsToLower a) || containsSub (jsToLower a) (jsToLower b)) =
      (containsSub (jsToLower a) (jsToLower b) || containsSub (jsToLower b) (jsToLower a)) :=
    Bool.or_comm _ _
  unfold calculateSimilarity
  dsimp only
  rw [e1, e2, e3, e4, e5, e6, e7, e8]

/-- C5 counterexample to the original claim: with a repeated significant word
the scorer is asymmetric — the duplicated token is counted twice in one
direction of the intersection. -/
theorem c5_counterexample :
    calculateSimilarity "pricing pricing plan" "pricing plan extras" ≠
      calculateSimilarity "pricing plan extras" "pricing pricing plan" := by
  rw [show calculateSimilarity "pricing pricing plan" "pricing plan extras" = 1 from rfl,
      show calculateSimilarity "pricing plan extras" "pricing pricing plan" = 23/30 from rfl]
  norm_num

/-- C5 witness: the amended theorem applied at two duplicate-free inputs. -/
theorem c5_scorer_symmetric_witness :
    calculateSimilarity "premium pricing" "pricing options" =
      calculateSimilarity "pricing options" "premium pricing" :=
  c5_scorer_symmetric_on_nodup "premium pricing" "pricing options"
    (by rw [show sigWords "premium pricing" = ["premium", "pricing"] from rfl]; decide)
    (by rw [show sigWords "pricing options" = ["pricing", "options"] from rfl]; decide)

/-- C6: an input whose trimmed form is under 30 characters is returned as the
single-element list of its trimmed self, and the splitter never returns an
empty list. -/
theorem c6_splitter (s : String) :
    (jsLength (jsTrim s) < 30 → parseMultipleQuestions s = [jsTrim s]) ∧
    parseMultipleQuestions s ≠ [] := by
  by_cases h0 : s = ""
  · subst h0
    refine ⟨fun _ => rfl, ?_⟩
    rw [show parseMultipleQuestions "" = [""] from rfl]
    simp
  · have h0' : (s == "") = false := by simpa using h0
    constructor
    · intro hlen
      unfold parseMultipleQuestions
      rw [h0']
      simp only [Bool.false_eq_true, if_false]
      rw [if_pos hlen]
    · unfold parseMultipleQuestions
      rw [h0']
      simp only [Bool.false_eq_true, if_false]
      by_cases hlen : jsLength (jsTrim s) < 30
      · rw [if_pos hlen]
        simp
      · rw [if_neg hlen]
        cases hsep : firstSepHit questionSeparators (jsTrim s) with
        | some qs => exact firstSepHit_ne_nil hsep
        | none => exact ite_len_ne_nil _ _

/-- C6 witness: a five-character input is returned whole. -/
theorem c6_splitter_witness : parseMultipleQuestions "hello" = [jsTrim "hello"] :=
  (c6_splitter "hello").1
    (by rw [show jsLength (jsTrim "hello") = 5 from rfl]; norm_num)

/-- C7: the fuzzy and fallback corpus scans are never invoked — not on the
default path, and, against the claim, not on the force path either: the force
path only clears the cached entry and reruns the same exact, partial and text
tiers. -/
theorem c7_fuzzy_fallback_never_used (db : CorpusOracles) (c : Cache) (now : Nat)
    (query : String) :
    (Tier.fuzzyTier ∉ (findMatchingQuestion db c now query).tiersTried ∧
     Tier.fallbackTier ∉ (findMatchingQuestion db c now query).tiersTried) ∧
    (Tier.fuzzyTier ∉ (findMatchingQuestionForce db c now query).tiersTried ∧
     Tier.fallbackTier ∉ (findMatchingQuestionForce db c now query).tiersTried) ∧
    findMatchingQuestionForce db c now query =
      findMatchingQuestion db (cacheDelete c (normalizeQuery query)) now query :=
  ⟨findMatchingQuestion_no_fuzzy db c now query,
   findMatchingQuestion_no_fuzzy db (clearCache c query) now query,
   rfl⟩

/-- C7 counterexample to the original claim: a long query forced on an empty
corpus tries exactly the exact, partial and text tiers — the fuzzy and
fallback tiers are dead code even on the force path. -/
theorem c7_counterexample :
    (findMatchingQuestionForce missOracles [] 0 "what is your pricing please").tiersTried =
      [Tier.exactTier, Tier.partialTier, Tier.textTier] ∧
    Tier.fuzzyTier ∉
      (findMatchingQuestionForce missOracles [] 0 "what is your pricing please").tiersTried ∧
    (findMatchingQuestionForce missOracles [] 0 "what is your pricing please").result =
      none := by
  refine ⟨rfl, ?_, rfl⟩
  rw [show (findMatchingQuestionForce missOracles [] 0
      "what is your pricing please").tiersTried =
      [Tier.exactTier, Tier.partialTier, Tier.textTier] from rfl]
  simp

/-- C7 witness: the amended theorem applied at a concrete query. -/
theorem c7_fuzzy_fallback_witness :
    Tier.fuzzyTier ∉ (findMatchingQuestion missOracles [] 0 "what is your pricing").tiersTried :=
  (c7_fuzzy_fallback_never_used missOracles [] 0 "what is your pricing").1.1

/-- C8: whatever text the TTS section hands to synthesis contains no
case-insensitive reference to a later labeled option, and when no clean
fragment can be produced the synthesis step is skipped and the audio URL
stays null. -/
theorem c8_tts_no_later_options (responseText : String) :
    (∀ t, ttsTextForSynthesis responseText = some t →
      containsSub (jsToLower t) "response b" = false ∧
      containsSub (jsToLower t) "response c" = false) ∧
    (ttsTextForSynthesis responseText = none →
      ∀ synth : String → Option String, pipelineAudioUrl synth responseText = none) := by
  constructor
  · intro t ht
    unfold ttsTextForSynthesis at ht
    split at ht
    · simp at ht
    · dsimp only at ht
      set t2 := strictCut (extractTtsText responseText) with ht2
      by_cases hbc : (containsSub (jsToLower t2) "response b" ||
          containsSub (jsToLower t2) "response c") = true
      · rw [if_pos hbc] at ht
        simp at ht
      · rw [if_neg hbc] at ht
        split at ht
        · simp at ht
        · have heq : t2 = t := by injection ht
          simp only [Bool.not_eq_true, Bool.or_eq_false_iff] at hbc
          rw [← heq]
          exact ⟨hbc.1, hbc.2⟩
  · intro hn synth
    unfold pipelineAudioUrl
    rw [hn]

/-- C8 witness: a two-option reply yields the first option text only, clean of
later labels. -/
theorem c8_tts_witness :
    containsSub (jsToLower "Hello there.") "response b" = false ∧
    containsSub (jsToLower "Hello there.") "response c" = false :=
  (c8_tts_no_later_options "Response A: Hello there.\nResponse B: x").1
    "Hello there." rfl

/-- C9: the streaming early-synthesis trigger fires at most once per request,
whatever the chunk sequence (spec-modelled state machine; the latch blocks any
further firing even when the marker and word-count conditions recur). -/
theorem c9_early_synthesis_at_most_once (chunks : List String) :
    (runStream chunks).fireCount ≤ 1 :=
  (foldl_stream_inv chunks streamInit ⟨fun _ => rfl, Nat.zero_le 1⟩).2

/-- C10: `analyzeSentiment` is total — the color is green exactly when the
score exceeds 0.1, red exactly when it is below minus 0.1, yellow otherwise;
a missing text yields the neutral object, an empty text the Empty-text
neutral object, and a provider failure the neutral object carrying the
provider error instead of propagating it. -/
theorem c10_sentiment_total (provider : Except String RawSentiment) (text : Option String) :
    (((analyzeSentiment provider text).color = "green" ↔
        (1/10 : ℚ) < (analyzeSentiment provider text).score) ∧
     ((analyzeSentiment provider text).color = "red" ↔
        (analyzeSentiment provider text).score < -(1/10 : ℚ)) ∧
     ((analyzeSentiment provider text).color = "yellow" ↔
        (¬ ((1/10 : ℚ) < (analyzeSentiment provider text).score) ∧
         ¬ ((analyzeSentiment provider text).score < -(1/10 : ℚ))))) ∧
    analyzeSentiment provider none = neutralSentiment "Sentiment analysis failed" ∧
    (∀ t, (jsTrim t).toList.length = 0 →
      analyzeSentiment provider (some t) =
        { score := 0, magnitude := 0, color := "yellow", sentiment := "neutral",
          error := some "Empty text" }) ∧
    (∀ t err, provider = .error err → (jsTrim t).toList.length ≠ 0 →
      analyzeSentiment provider (some t) = neutralSentiment err) := by
  refine ⟨?_, rfl, ?_, ?_⟩
  · cases text with
    | none =>
      dsimp only [analyzeSentiment, neutralSentiment]
      exact ⟨iff_of_false (by simp) (by norm_num),
             iff_of_false (by simp) (by norm_num),
             iff_of_true rfl (by norm_num)⟩
    | some t =>
      dsimp only [analyzeSentiment]
      split_ifs with h0
      · exact ⟨iff_of_false (by simp) (by norm_num),
               iff_of_false (by simp) (by norm_num),
               iff_of_true rfl (by norm_num)⟩
      · cases provider with
        | error err =>
          dsimp only [neutralSentiment]
          exact ⟨iff_of_false (by simp) (by norm_num),
                 iff_of_false (by simp) (by norm_num),
                 iff_of_true rfl (by norm_num)⟩
        | ok raw =>
          dsimp only
          split_ifs with h1 h2
          · exact ⟨iff_of_true rfl h1,
                   iff_of_false (by simp) (by intro h; linarith),
                   iff_of_false (by simp) (fun h => h.1 h1)⟩
          · exact ⟨iff_of_false (by simp) h1,
                   iff_of_true rfl h2,
                   iff_of_false (by simp) (fun h => h.2 h2)⟩
          · exact ⟨iff_of_false (by simp) h1,
                   iff_of_false (by simp) h2,
                   iff_of_true rfl ⟨h1, h2⟩⟩
  · intro t ht
    have ht' : (((jsTrim t).toList.length == 0) = true) := by simpa using ht
    dsimp only [analyzeSentiment]
    rw [if_pos ht']
  · intro t err hp ht
    subst hp
    have ht' : (((jsTrim t).toList.length == 0) = false) := by simpa using ht
    dsimp only [analyzeSentiment]
    rw [ht']
    rfl

/-- C10 witness: the empty string maps to the Empty-text neutral object. -/
theorem c10_sentiment_witness :
    analyzeSentiment (Except.ok ⟨1, 1⟩) (some "") =
      { score := 0, magnitude := 0, color := "yellow", sentiment := "neutral",
        error := some "Empty text" } :=
  (c10_sentiment_total (Except.ok ⟨1, 1⟩) (some "")).2.2.1 "" rfl

end Selltron
